import Mathlib

/-!
Shallow embedding of `mpyq.py` (an MPQ archive reader) and verification of
its specification claims.

Bytes are modelled as `Nat` values below 256, byte buffers as `List Nat`,
Python 32-bit wrapping arithmetic as explicit `% 2^32`, and fallible code
as `Except PyErr`.  Signed struct fields (`struct` format characters
`i`/`h`/`b`/`q`) are decoded to `Int`.
-/

set_option maxRecDepth 4000

namespace Mpyq

/-- The modulus for 32-bit unsigned arithmetic; Python's `& 0xFFFFFFFF`
masking is embedded as `% M32`. -/
def M32 : Nat := 4294967296

/-- Little-endian byte decoding (`struct.unpack` with format `I`, `H`, ...). -/
def bytesToNatLE : List Nat → Nat
  | [] => 0
  | b :: bs => b + 256 * bytesToNatLE bs

/-- Big-endian byte decoding (`struct` format `>i`, `>h`). -/
def bytesToNatBE (l : List Nat) : Nat := l.foldl (fun a b => a * 256 + b) 0

/-- Decode an unsigned 32-bit value as the signed value of struct format `i`. -/
def sint32 (v : Nat) : Int := if v < 2147483648 then (v : Int) else (v : Int) - 4294967296

/-- Decode an unsigned 64-bit value as the signed value of struct format `q`. -/
def sint64 (v : Nat) : Int :=
  if v < 9223372036854775808 then (v : Int) else (v : Int) - 18446744073709551616

/-- Decode an unsigned 16-bit value as the signed value of struct format `h`. -/
def sint16 (v : Nat) : Int := if v < 32768 then (v : Int) else (v : Int) - 65536

/-- Decode an unsigned 8-bit value as the signed value of struct format `b`. -/
def sint8 (v : Nat) : Int := if v < 128 then (v : Int) else (v : Int) - 256

/-- Python slice `l[pos:pos+n]`. -/
def slice (l : List Nat) (pos n : Nat) : List Nat := (l.drop pos).take n

/-- Python 2 `file.read(n)` at position `pos` of a file with contents `f`:
returns at most `n` bytes, fewer at end of file. -/
def fread (f : List Nat) (pos n : Nat) : List Nat := (f.drop pos).take n

/-- Python 2 `file.read(n)` with a signed count: a negative count reads
everything up to end of file. -/
def freadI (f : List Nat) (pos : Nat) (n : Int) : List Nat :=
  if n < 0 then f.drop pos else (f.drop pos).take n.toNat

/-- The ASCII codes of a string literal. -/
def strBytes (s : String) : List Nat := s.data.map Char.toNat

/-- Decidable equality for `Except`, used to evaluate the embedded fallible
operations on concrete inputs. -/
instance {ε α : Type} [DecidableEq ε] [DecidableEq α] : DecidableEq (Except ε α) := fun a b =>
  match a, b with
  | .ok x, .ok y =>
      if h : x = y then isTrue (by rw [h]) else isFalse (fun hh => by cases hh; exact h rfl)
  | .error x, .error y =>
      if h : x = y then isTrue (by rw [h]) else isFalse (fun hh => by cases hh; exact h rfl)
  | .ok _, .error _ => isFalse (fun hh => by cases hh)
  | .error _, .ok _ => isFalse (fun hh => by cases hh)

/-- Python exceptions that the code under analysis can raise. -/
inductive PyErr where
  /-- `struct.error`: `struct.unpack` applied to data of the wrong length. -/
  | structError
  /-- `UnboundLocalError`: a local variable is referenced before assignment. -/
  | unboundLocalError
  /-- `IOError`: `file.seek` applied to a negative position. -/
  | ioError
  /-- `IndexError`: indexing into an empty string. -/
  | indexError
  /-- `zlib.error`: `zlib.decompress` applied to a malformed stream. -/
  | zlibError
  deriving DecidableEq, Repr

/-! ## Encryption table (`_prepare_encryption_table`)

The source builds a Python dict `crypt_table`, threading one seed through a
nested loop (`i` in 0..255 outer, `j` in 0..4 inner); each inner iteration
advances the seed twice and assigns `crypt_table[i + 0x100*j]`.  We embed
the dict as the ordered list of its `(index, value)` assignments, looked up
from the most recent assignment backwards (dict semantics: last write
wins). -/

/-- One advance of the table-generation seed: `seed = (seed * 125 + 3) % 0x2AAAAB`. -/
def seedStep (s : Nat) : Nat := (s * 125 + 3) % 0x2AAAAB

/-- Iterated seed advance. -/
def seedIter : Nat → Nat → Nat
  | 0, s => s
  | n + 1, s => seedIter n (seedStep s)

/-- Combine the two extracted halves:
`temp1 = (seed & 0xFFFF) << 0x10`, `temp2 = (seed & 0xFFFF)`, `temp1 | temp2`. -/
def combineTemps (a b : Nat) : Nat := ((a % 65536) * 65536) ||| (b % 65536)

/-- The inner `for j in range(5)` loop of `_prepare_encryption_table`:
argument order is remaining iterations, current seed, current index.
Returns the final seed and the `(index, value)` assignments in order. -/
def innerAssign : Nat → Nat → Nat → Nat × List (Nat × Nat)
  | 0, seed, _ => (seed, [])
  | j + 1, seed, index =>
      let s1 := seedStep seed
      let s2 := seedStep s1
      let r := innerAssign j s2 (index + 256)
      (r.1, (index, combineTemps s1 s2) :: r.2)

/-- The outer `for i in range(256)` loop of `_prepare_encryption_table`:
remaining iterations, current seed, current base index `i`. -/
def outerAssign : Nat → Nat → Nat → Nat × List (Nat × Nat)
  | 0, seed, _ => (seed, [])
  | n + 1, seed, i =>
      let r1 := innerAssign 5 seed i
      let r2 := outerAssign n r1.1 (i + 1)
      (r2.1, r1.2 ++ r2.2)

/-- All dict assignments performed by `_prepare_encryption_table`, in
program order, starting from `seed = 0x00100001`. -/
def cryptAssignments : List (Nat × Nat) := (outerAssign 256 0x00100001 0).2

/-- The dict `MPQArchive.encryption_table`: the value of the last assignment
to the given index, if any. -/
def encryptionTable (k : Nat) : Option Nat :=
  (cryptAssignments.reverse.find? (fun p => p.1 == k)).map Prod.snd

/-- Dict lookup as used by `_hash` and `_decrypt`; every index those methods
produce is assigned in the table (proved below), so the default is never
taken on the code's own lookups. -/
def etbl (k : Nat) : Nat := (encryptionTable k).getD 0

/-- The table-generation seed after `n` advances from the initial `0x00100001`. -/
def seedAt (n : Nat) : Nat := seedIter n 0x00100001

/-- Closed form of the table value stored at index `i + 256*r`: it combines
the two seed advances performed for that cell; the whole build performs
`10*i + 2*r + 2` advances up to and including that cell's second advance. -/
def cryptValue (i r : Nat) : Nat :=
  combineTemps (seedAt (10 * i + 2 * r + 1)) (seedAt (10 * i + 2 * r + 2))

/-! ## String hasher (`_hash`) -/

/-- Upper-casing of a single byte-string character, Python 2 `str.upper`:
ASCII letters `a`..`z` map to `A`..`Z`, everything else is unchanged. -/
def mpqUpper (c : Nat) : Nat := if 97 ≤ c ∧ c ≤ 122 then c - 32 else c

/-- The encryption-table index used by `_hash`:
`(hash_types[hash_type] << 8) + ch`. -/
def hashIndex (t ch : Nat) : Nat := (t <<< 8) + ch

/-- One iteration of the `for ch in string` loop of `_hash`.  `t` is the
numeric hash type (`TABLE_OFFSET = 0`, `HASH_A = 1`, `HASH_B = 2`,
`TABLE = 3`); the state is `(seed1, seed2)`. -/
def hashStep (t : Nat) (st : Nat × Nat) (c0 : Nat) : Nat × Nat :=
  let c := mpqUpper c0
  let value := etbl (hashIndex t c)
  let s1 := (value ^^^ (st.1 + st.2)) % M32
  let s2 := (c + s1 + st.2 + st.2 * 32 + 3) % M32
  (s1, s2)

/-- `MPQArchive._hash(string, hash_type)` with the string as a byte list and
the hash type as its numeric value. -/
def mpqHash (s : List Nat) (t : Nat) : Nat :=
  (s.foldl (hashStep t) (0x7FED7FED, 0xEEEEEEEE)).1

/-! ## Stream decryptor (`_decrypt`) -/

/-- The 32-bit little-endian words of a byte buffer, one per iteration of
`for i in range(len(data) // 4)`; a trailing fragment shorter than 4 bytes
is never visited. -/
def toWords : List Nat → List Nat
  | b0 :: b1 :: b2 :: b3 :: rest => bytesToNatLE [b0, b1, b2, b3] :: toWords rest
  | _ => []

/-- `struct.pack("<I", v)` for `v < 2^32`. -/
def ofWord (v : Nat) : List Nat := [v % 256, v / 256 % 256, v / 65536 % 256, v / 16777216 % 256]

/-- The encryption-table index used by `_decrypt`: `0x400 + (seed1 & 0xFF)`. -/
def decryptIndex (s1 : Nat) : Nat := 0x400 + s1 % 256

/-- The word loop of `_decrypt` over the word list, threading `(seed1, seed2)`.
The `seed1` update embeds Python's
`seed1 = ((~seed1 << 0x15) + 0x11111111) | (seed1 >> 0x0B); seed1 &= 0xFFFFFFFF`:
Python's `~` on an unbounded integer is `-(seed1+1)`, and taking the low 32
bits of the bitwise-or distributes onto both operands, giving
`(((2^32-1 - seed1 % 2^32) * 2^21 + 0x11111111) % 2^32) ||| (seed1 / 2^11 % 2^32)`. -/
def decryptLoop : Nat → Nat → List Nat → List Nat
  | _, _, [] => []
  | s1, s2, w :: ws =>
      let s2a := (s2 + etbl (decryptIndex s1)) % M32
      let v := (w ^^^ (s1 + s2a)) % M32
      let s1n := (((M32 - 1 - s1 % M32) * 2097152 + 286331153) % M32) ||| (s1 / 2048 % M32)
      let s2n := (v + s2a + s2a * 32 + 3) % M32
      ofWord v ++ decryptLoop s1n s2n ws

/-- `MPQArchive._decrypt(data, key)`. -/
def mpqDecrypt (data : List Nat) (key : Nat) : List Nat :=
  decryptLoop key 0xEEEEEEEE (toWords data)

/-! ## Header structures and `read_header` -/

/-- The `MPQFileHeaderExt` namedtuple (struct format `q2h`, native layout:
12 bytes, little-endian on the targeted platforms). -/
structure MPQFileHeaderExt where
  extended_block_table_offset : Int
  hash_table_offset_high : Int
  block_table_offset_high : Int
  deriving DecidableEq, Repr

/-- The `SC2ReplayHeader` namedtuple (struct format `>x19s2x4bi6xhx`,
39 bytes, big-endian). -/
structure SC2ReplayHeader where
  identifier : List Nat
  release_flag : Int
  major_version : Int
  minor_version : Int
  maintenance_version : Int
  build_number : Int
  duration : Int
  deriving DecidableEq, Repr

/-- The `MPQUserDataHeader` namedtuple (struct format `<4s3i`, 16 bytes)
together with the `content` and `starcraft2_replay_header` entries that
`read_mpq_user_data_header` adds to its dict. -/
structure MPQUserDataHeader where
  magic : List Nat
  user_data_size : Int
  mpq_header_offset : Int
  user_data_header_size : Int
  content : List Nat
  starcraft2_replay_header : Option SC2ReplayHeader
  deriving DecidableEq, Repr

/-- The `MPQFileHeader` namedtuple (struct format `<4s2i2h4i`, 32 bytes;
the source misspells `arhive_size`) together with the dict entries
`read_header` adds: the version-1 extension, the base `offset`, and the
user-data header for `MPQ\x1b` archives. -/
structure MPQHeader where
  magic : List Nat
  header_size : Int
  arhive_size : Int
  format_version : Int
  sector_size_shift : Int
  hash_table_offset : Int
  block_table_offset : Int
  hash_table_entries : Int
  block_table_entries : Int
  ext : Option MPQFileHeaderExt
  offset : Int
  user_data_header : Option MPQUserDataHeader
  deriving DecidableEq, Repr

/-- `struct.unpack(MPQFileHeader.struct_format, data)` (`<4s2i2h4i`):
fails unless `data` is exactly 32 bytes. -/
def unpackFileHeader (d : List Nat) : Except PyErr MPQHeader :=
  if d.length = 32 then
    .ok { magic := d.take 4
          header_size := sint32 (bytesToNatLE (slice d 4 4))
          arhive_size := sint32 (bytesToNatLE (slice d 8 4))
          format_version := sint16 (bytesToNatLE (slice d 12 2))
          sector_size_shift := sint16 (bytesToNatLE (slice d 14 2))
          hash_table_offset := sint32 (bytesToNatLE (slice d 16 4))
          block_table_offset := sint32 (bytesToNatLE (slice d 20 4))
          hash_table_entries := sint32 (bytesToNatLE (slice d 24 4))
          block_table_entries := sint32 (bytesToNatLE (slice d 28 4))
          ext := none
          offset := 0
          user_data_header := none }
  else .error .structError

/-- `struct.unpack(MPQFileHeaderExt.struct_format, data)` (`q2h`):
fails unless `data` is exactly 12 bytes. -/
def unpackHeaderExt (d : List Nat) : Except PyErr MPQFileHeaderExt :=
  if d.length = 12 then
    .ok { extended_block_table_offset := sint64 (bytesToNatLE (slice d 0 8))
          hash_table_offset_high := sint16 (bytesToNatLE (slice d 8 2))
          block_table_offset_high := sint16 (bytesToNatLE (slice d 10 2)) }
  else .error .structError

/-- The nested `read_mpq_header` helper of `read_header`, reading at the
given file position: 32 header bytes, plus 12 extension bytes immediately
after when `format_version == 1`. -/
def readMpqHeaderAt (f : List Nat) (pos : Nat) : Except PyErr MPQHeader :=
  match unpackFileHeader (fread f pos 32) with
  | .error e => .error e
  | .ok hdr =>
    if hdr.format_version = 1 then
      match unpackHeaderExt (fread f (pos + 32) 12) with
      | .error e => .error e
      | .ok ex => .ok { hdr with ext := some ex }
    else .ok hdr

/-- The signature `'\x15StarCraft II replay'` tested by
`header['content'].startswith(...)`. -/
def sc2Sig : List Nat := 21 :: strBytes "StarCraft II replay"

/-- `struct.unpack(SC2ReplayHeader.struct_format, content)` (`>x19s2x4bi6xhx`):
fails unless `content` is exactly 39 bytes. -/
def unpackSC2Replay (content : List Nat) : Except PyErr SC2ReplayHeader :=
  if content.length = 39 then
    .ok { identifier := slice content 1 19
          release_flag := sint8 (bytesToNatLE (slice content 22 1))
          major_version := sint8 (bytesToNatLE (slice content 23 1))
          minor_version := sint8 (bytesToNatLE (slice content 24 1))
          maintenance_version := sint8 (bytesToNatLE (slice content 25 1))
          build_number := sint32 (bytesToNatBE (slice content 26 4))
          duration := sint16 (bytesToNatBE (slice content 36 2)) }
  else .error .structError

/-- The nested `read_mpq_user_data_header` helper of `read_header`: 16 bytes
of fixed header from position 0, then `user_data_header_size` bytes of
content, then the optional StarCraft II replay sub-header. -/
def unpackUserDataHeader (f : List Nat) : Except PyErr MPQUserDataHeader :=
  let d := fread f 0 16
  if d.length = 16 then
    let udhs := sint32 (bytesToNatLE (slice d 12 4))
    let content := freadI f 16 udhs
    let base : MPQUserDataHeader :=
      { magic := d.take 4
        user_data_size := sint32 (bytesToNatLE (slice d 4 4))
        mpq_header_offset := sint32 (bytesToNatLE (slice d 8 4))
        user_data_header_size := udhs
        content := content
        starcraft2_replay_header := none }
    if content.take 20 = sc2Sig then
      match unpackSC2Replay content with
      | .error e => .error e
      | .ok rh => .ok { base with starcraft2_replay_header := some rh }
    else .ok base
  else .error .structError

/-- The archive magic `'MPQ\x1a'`. -/
def magic1a : List Nat := [77, 80, 81, 26]

/-- The user-data magic `'MPQ\x1b'`. -/
def magic1b : List Nat := [77, 80, 81, 27]

/-- `MPQArchive.read_header`.  For any other magic the source reaches
`return header` with the local `header` unassigned, raising
`UnboundLocalError`.  In the `MPQ\x1b` branch, `read_mpq_header(offset)`
seeks only when `offset` is truthy (nonzero); a negative offset makes the
seek fail. -/
def readHeader (f : List Nat) : Except PyErr MPQHeader :=
  let magic := fread f 0 4
  if magic = magic1a then
    match readMpqHeaderAt f 0 with
    | .error e => .error e
    | .ok h => .ok { h with offset := 0 }
  else if magic = magic1b then
    match unpackUserDataHeader f with
    | .error e => .error e
    | .ok udh =>
      let startPos : Except PyErr Nat :=
        if udh.mpq_header_offset = 0 then .ok (16 + udh.content.length)
        else if udh.mpq_header_offset < 0 then .error .ioError
        else .ok udh.mpq_header_offset.toNat
      match startPos with
      | .error e => .error e
      | .ok p =>
        match readMpqHeaderAt f p with
        | .error e => .error e
        | .ok h => .ok { h with offset := udh.mpq_header_offset,
                                user_data_header := some udh }
  else .error .unboundLocalError

/-! ## Table reader (`read_table`) -/

/-- The `table_type` argument of `read_table`. -/
inductive TableKind where
  | hash
  | block
  deriving DecidableEq, Repr

/-- The string `'(%s table)' % table_type`. -/
def tableKey : TableKind → List Nat
  | .hash => strBytes "(hash table)"
  | .block => strBytes "(block table)"

/-- `self.header['%s_table_offset' % table_type]`. -/
def tableOffsetOf (h : MPQHeader) : TableKind → Int
  | .hash => h.hash_table_offset
  | .block => h.block_table_offset

/-- `self.header['%s_table_entries' % table_type]`. -/
def tableEntriesOf (h : MPQHeader) : TableKind → Int
  | .hash => h.hash_table_entries
  | .block => h.block_table_entries

/-- `MPQArchive.read_table(table_type)`: seek to
`table_offset + self.header['offset']`, read `table_entries * 16` bytes,
decrypt with the key `_hash('(x table)', 'TABLE')`. -/
def readTable (f : List Nat) (hdr : MPQHeader) (t : TableKind) : Except PyErr (List Nat) :=
  let key := mpqHash (tableKey t) 3
  let target := tableOffsetOf hdr t + hdr.offset
  if target < 0 then .error .ioError
  else .ok (mpqDecrypt (freadI f target.toNat (tableEntriesOf hdr t * 16)) key)

/-! ## zlib model

`read_file` calls `zlib.decompress(file_data[1:], 15)`.  The library is not
part of this repository; the following definitions model its documented
behaviour (RFC 1950): with `wbits = 15` the input must carry the two-byte
zlib wrapper (compression method 8, window size at most 7, header checksum
divisible by 31, no preset dictionary), followed by a raw deflate stream
(RFC 1951) and a big-endian Adler-32 checksum of the decompressed output.
The deflate decoder is modelled for streams made of stored (uncompressed)
blocks; Huffman-compressed block types are outside the model and map to an
error. -/

/-- Adler-32 accumulation over the byte list with state `(a, b)`. -/
def adler32Aux : List Nat → Nat → Nat → Nat
  | [], a, b => b * 65536 + a
  | c :: rest, a, b => adler32Aux rest ((a + c) % 65521) ((b + (a + c) % 65521) % 65521)

/-- Adler-32 checksum of a byte list. -/
def adler32 (l : List Nat) : Nat := adler32Aux l 1 0

/-- Inflate a raw deflate stream consisting of stored blocks.  Returns the
decompressed output and the bytes following the stream, or `none` on a
malformed stream or a block type outside the model. -/
def inflateStored : Nat → List Nat → Option (List Nat × List Nat)
  | _, [] => none
  | fuel, hdr :: rest =>
      let bfinal := hdr % 2
      let btype := hdr / 2 % 4
      if btype = 0 then
        match rest with
        | l0 :: l1 :: n0 :: n1 :: tail =>
            let len := l0 + 256 * l1
            if l0 + 256 * l1 + (n0 + 256 * n1) = 65535 then
              if tail.length < len then none
              else if bfinal = 1 then some (tail.take len, tail.drop len)
              else
                match fuel with
                | 0 => none
                | fuel' + 1 =>
                  match inflateStored fuel' (tail.drop len) with
                  | some (o2, r2) => some (tail.take len ++ o2, r2)
                  | none => none
            else none
        | _ => none
      else none

/-- Model of `zlib.decompress(data, 15)`; see the section comment above. -/
def zlibDecompress (data : List Nat) : Except PyErr (List Nat) :=
  match data with
  | cmf :: flg :: rest =>
    if cmf % 16 = 8 ∧ cmf / 16 ≤ 7 ∧ (cmf * 256 + flg) % 31 = 0 ∧ flg / 32 % 2 = 0 then
      match inflateStored rest.length rest with
      | some (out, trailer) =>
          if 4 ≤ trailer.length ∧ bytesToNatBE (trailer.take 4) = adler32 out then .ok out
          else .error .zlibError
      | none => .error .zlibError
    else .error .zlibError
  | _ => .error .zlibError

/-! ## File reader (`read_file`) -/

/-- The `MPQHashTableEntry` namedtuple (struct format `2I2HI`, 16 bytes). -/
structure MPQHashTableEntry where
  hash_a : Nat
  hash_b : Nat
  locale : Nat
  platform : Nat
  block_table_index : Nat
  deriving DecidableEq, Repr

/-- The `MPQBlockTableEntry` namedtuple (struct format `4I`, 16 bytes). -/
structure MPQBlockTableEntry where
  offset : Nat
  archived_size : Nat
  size : Nat
  flags : Nat
  deriving DecidableEq, Repr

/-- `struct.unpack(MPQHashTableEntry.struct_format, data)`:
fails unless `data` is exactly 16 bytes. -/
def unpackHashEntry (d : List Nat) : Except PyErr MPQHashTableEntry :=
  if d.length = 16 then
    .ok { hash_a := bytesToNatLE (slice d 0 4)
          hash_b := bytesToNatLE (slice d 4 4)
          locale := bytesToNatLE (slice d 8 2)
          platform := bytesToNatLE (slice d 10 2)
          block_table_index := bytesToNatLE (slice d 12 4) }
  else .error .structError

/-- `struct.unpack(MPQBlockTableEntry.struct_format, data)`:
fails unless `data` is exactly 16 bytes. -/
def unpackBlockEntry (d : List Nat) : Except PyErr MPQBlockTableEntry :=
  if d.length = 16 then
    .ok { offset := bytesToNatLE (slice d 0 4)
          archived_size := bytesToNatLE (slice d 4 4)
          size := bytesToNatLE (slice d 8 4)
          flags := bytesToNatLE (slice d 12 4) }
  else .error .structError

/-- The file flag constants of the source. -/
def MPQ_FILE_IMPLODE : Nat := 0x00000100

/-- `MPQ_FILE_COMPRESS`. -/
def MPQ_FILE_COMPRESS : Nat := 0x00000200

/-- `MPQ_FILE_ENCRYPTED`. -/
def MPQ_FILE_ENCRYPTED : Nat := 0x00010000

/-- `MPQ_FILE_FIX_KEY`. -/
def MPQ_FILE_FIX_KEY : Nat := 0x00020000

/-- `MPQ_FILE_SINGLE_UNIT`. -/
def MPQ_FILE_SINGLE_UNIT : Nat := 0x01000000

/-- `MPQ_FILE_DELETE_MARKER`. -/
def MPQ_FILE_DELETE_MARKER : Nat := 0x02000000

/-- `MPQ_FILE_SECTOR_CRC`. -/
def MPQ_FILE_SECTOR_CRC : Nat := 0x04000000

/-- `MPQ_FILE_EXISTS`. -/
def MPQ_FILE_EXISTS : Nat := 0x80000000

/-- The `for i in range(hash_table_entries)` scan of `read_file`, called
with the current index `i` and the number of remaining iterations.  Each
iteration unpacks the 16-byte slice at `i*16`; a matching entry breaks out
of the loop.  When the loop finishes without a match, Python's leaked loop
variable leaves `entry` bound to the last unpacked entry, which the code
then uses; with zero iterations `entry` is unbound and the attribute access
raises `UnboundLocalError`. -/
def scanHashTable (ht : List Nat) (ha hb : Nat) : Nat → Nat → Except PyErr MPQHashTableEntry
  | _, 0 => .error .unboundLocalError
  | i, count + 1 =>
    match unpackHashEntry (slice ht (i * 16) 16) with
    | .error e => .error e
    | .ok entry =>
      if entry.hash_a = ha ∧ entry.hash_b = hb then .ok entry
      else if count = 0 then .ok entry
      else scanHashTable ht ha hb (i + 1) count

/-- The tail of `read_file` from the resolved block-table entry on: check
the `MPQ_FILE_EXISTS` flag (falling through to Python's implicit `None`
when it is clear), seek to `offset + self.header['offset']`, read
`archived_size` bytes, and decompress them when the `MPQ_FILE_COMPRESS`
flag is set and the method byte is 2. -/
def readFileBlock (f : List Nat) (hdr : MPQHeader) (bte : MPQBlockTableEntry) :
    Except PyErr (Option (List Nat)) :=
  if bte.flags &&& MPQ_FILE_EXISTS ≠ 0 then
    let target := (bte.offset : Int) + hdr.offset
    if target < 0 then .error .ioError
    else
      let file_data := fread f target.toNat bte.archived_size
      if bte.flags &&& MPQ_FILE_COMPRESS ≠ 0 then
        match file_data with
        | [] => .error .indexError
        | c :: rest =>
          if c = 2 then
            match zlibDecompress rest with
            | .error e => .error e
            | .ok out => .ok (some out)
          else .ok (some file_data)
      else .ok (some file_data)
  else .ok none

/-- The middle of `read_file`: index the block table with
`entry.block_table_index * 16` and unpack the 16-byte block entry. -/
def readFileEntry (f : List Nat) (hdr : MPQHeader) (block_table : List Nat)
    (entry : MPQHashTableEntry) : Except PyErr (Option (List Nat)) :=
  match unpackBlockEntry (slice block_table (entry.block_table_index * 16) 16) with
  | .error e => .error e
  | .ok bte => readFileBlock f hdr bte

/-- `MPQArchive.read_file(filename)` over an archive with contents `f`,
parsed header `hdr`, and decrypted table buffers `hash_table` and
`block_table`: hash the filename under `HASH_A` and `HASH_B`, scan the hash
table, then continue with `readFileEntry`/`readFileBlock` above.  A
`.ok none` result is Python's implicit `None` return. -/
def readFile (f : List Nat) (hdr : MPQHeader) (hash_table block_table : List Nat)
    (filename : List Nat) : Except PyErr (Option (List Nat)) :=
  let ha := mpqHash filename 1
  let hb := mpqHash filename 2
  match scanHashTable hash_table ha hb 0 hdr.hash_table_entries.toNat with
  | .error e => .error e
  | .ok entry => readFileEntry f hdr block_table entry

/-! ## Specification-side definitions

These definitions transcribe formulas the way the specification claims state
them (not the way the source computes them); the theorems below compare them
with the embedded source. -/

/-- The table entry at index `i + 256*round` as claim C2 words it: the
bitwise or of the HIGH 16 bits of the first seed advance shifted left 16
with the low 16 bits of the second seed advance, over the same global seed
sequence. -/
def c2ClaimEntry (i r : Nat) : Nat :=
  ((seedAt (10 * i + 2 * r + 1) / 65536 % 65536) * 65536) |||
    (seedAt (10 * i + 2 * r + 2) % 65536)

/-- The `(seed1, seed2)` pair before processing word `i`, following claim
C4's recurrence word for word: `seed1` starts at the key, `seed2` at
`0xEEEEEEEE`; per word, `seed2 = (seed2 + table[0x400 + (seed1 & 0xFF)]) mod 2^32`,
`plain = W XOR (seed1 + seed2)` masked to 32 bits,
`seed1 = (((NOT seed1) << 0x15) + 0x11111111) OR (seed1 >> 0x0B)` masked to
32 bits (with `NOT` the 32-bit complement), and
`seed2 = (plain + seed2 + (seed2 << 5) + 3) mod 2^32`. -/
def c4State (data : List Nat) (key : Nat) : Nat → Nat × Nat
  | 0 => (key, 0xEEEEEEEE)
  | i + 1 =>
    let s := c4State data key i
    let s2a := (s.2 + etbl (0x400 + s.1 % 256)) % M32
    let w := bytesToNatLE (slice data (4 * i) 4)
    let p := (w ^^^ (s.1 + s2a)) % M32
    let s1n := ((((M32 - 1 - s.1) <<< 21) + 0x11111111) ||| (s.1 >>> 11)) % M32
    let s2n := (p + s2a + s2a * 32 + 3) % M32
    (s1n, s2n)

/-- The `i`-th plaintext word of claim C4's recurrence. -/
def c4Word (data : List Nat) (key i : Nat) : Nat :=
  let s := c4State data key i
  let s2a := (s.2 + etbl (0x400 + s.1 % 256)) % M32
  (bytesToNatLE (slice data (4 * i) 4) ^^^ (s.1 + s2a)) % M32

/-- Relation between the outcomes of the hash-table scan over two tables
that differ only in locale/platform bytes: identical errors, or entries
agreeing on every field `read_file` goes on to use. -/
def scanOutcomeRel : Except PyErr MPQHashTableEntry → Except PyErr MPQHashTableEntry → Prop
  | .error a, .error b => a = b
  | .ok e1, .ok e2 => e1.block_table_index = e2.block_table_index
  | .error _, .ok _ => False
  | .ok _, .error _ => False

/-! ## Concrete test archives

Minimal single-member archives used as concrete inputs for the claims.
Each consists of a 32-byte version-0 header, one hash-table entry encrypted
with `_hash('(hash table)', 'TABLE')`, one block-table entry encrypted with
`_hash('(block table)', 'TABLE')`, and the stored bytes of the member
`a.txt` at offset 64.  The encrypted table bytes were produced by running
the cipher in reverse, and the theorems below verify that they decrypt to
the intended plaintext entries. -/

/-- Little-endian encoding of a 32-bit value. -/
def le32 (v : Nat) : List Nat := ofWord v

/-- Little-endian encoding of a 16-bit value. -/
def le16 (v : Nat) : List Nat := [v % 256, v / 256 % 256]

/-- The shared 32-byte archive header: hash table at 32 (1 entry), block
table at 48 (1 entry). -/
def mkHdr (total : Nat) : List Nat :=
  magic1a ++ le32 32 ++ le32 total ++ le16 0 ++ le16 3 ++ le32 32 ++ le32 48 ++ le32 1 ++ le32 1

/-- The parsed form of `mkHdr total` with base offset 0. -/
def hdrStd (total : Nat) : MPQHeader :=
  { magic := magic1a, header_size := 32, arhive_size := total, format_version := 0,
    sector_size_shift := 3, hash_table_offset := 32, block_table_offset := 48,
    hash_table_entries := 1, block_table_entries := 1, ext := none, offset := 0,
    user_data_header := none }

/-- Encrypted hash table whose single entry is `a.txt`'s hashes with block
index 0 (plaintext `plainHT`). -/
def encHT : List Nat := [60, 118, 97, 241, 116, 64, 154, 80, 17, 37, 86, 83, 220, 41, 42, 98]

/-- Encrypted block table: offset 64, archived size 5, size 5, flags
`MPQ_FILE_EXISTS` (plaintext `plainBTU`). -/
def encBTU : List Nat := [203, 103, 72, 61, 196, 211, 8, 202, 253, 190, 53, 248, 147, 250, 51, 232]

/-- Encrypted block table: offset 64, archived size 17, size 5, flags
`MPQ_FILE_EXISTS ||| MPQ_FILE_COMPRESS` (plaintext `plainBTZ`). -/
def encBTZ : List Nat := [203, 103, 72, 61, 208, 211, 8, 202, 1, 191, 53, 248, 31, 254, 51, 232]

/-- Encrypted block table: offset 64, archived size 11, size 5, flags
`MPQ_FILE_EXISTS ||| MPQ_FILE_COMPRESS` (plaintext `plainBTR`). -/
def encBTR : List Nat := [203, 103, 72, 61, 202, 211, 8, 202, 251, 190, 53, 248, 89, 249, 51, 232]

/-- Decrypted hash table: `hash_a`/`hash_b` of `a.txt`, locale 0, platform
0, block table index 0. -/
def plainHT : List Nat := [240, 185, 93, 119, 188, 160, 176, 143, 0, 0, 0, 0, 0, 0, 0, 0]

/-- `plainHT` with different locale (7) and platform (9) fields. -/
def plainHTloc : List Nat := [240, 185, 93, 119, 188, 160, 176, 143, 7, 0, 9, 0, 0, 0, 0, 0]

/-- Decrypted block table of the uncompressed archive. -/
def plainBTU : List Nat := [64, 0, 0, 0, 5, 0, 0, 0, 5, 0, 0, 0, 0, 0, 0, 128]

/-- `plainBTU` with the `MPQ_FILE_EXISTS` bit cleared. -/
def plainBTN : List Nat := [64, 0, 0, 0, 5, 0, 0, 0, 5, 0, 0, 0, 0, 0, 0, 0]

/-- Decrypted block table of the zlib-compressed archive. -/
def plainBTZ : List Nat := [64, 0, 0, 0, 17, 0, 0, 0, 5, 0, 0, 0, 0, 2, 0, 128]

/-- Decrypted block table of the raw-deflate archive. -/
def plainBTR : List Nat := [64, 0, 0, 0, 11, 0, 0, 0, 5, 0, 0, 0, 0, 2, 0, 128]

/-- The bytes of the string `hello`. -/
def helloBytes : List Nat := strBytes "hello"

/-- A zlib stream (with the two-byte zlib wrapper and the Adler-32 trailer)
whose decompression is `hello`; the deflate payload is a single stored
block. -/
def zstream : List Nat := [0x78, 0x01, 0x01, 0x05, 0x00, 0xFA, 0xFF] ++ helloBytes ++ [6, 44, 2, 21]

/-- A valid RAW deflate stream (a single stored block, no zlib wrapper)
whose decompression is `hello`. -/
def rawStream : List Nat := [0x01, 0x05, 0x00, 0xFA, 0xFF] ++ helloBytes

/-- Archive storing `a.txt` as the uncompressed bytes `hello`. -/
def fileU : List Nat := mkHdr 69 ++ encHT ++ encBTU ++ helloBytes

/-- Archive storing `a.txt` compressed: method byte 2 followed by a
zlib-wrapped stream for `hello`. -/
def fileZ : List Nat := mkHdr 81 ++ encHT ++ encBTZ ++ (2 :: zstream)

/-- Archive storing `a.txt` with the COMPRESS flag and method byte 2
followed by a RAW deflate stream (no zlib wrapper) for `hello`. -/
def fileR : List Nat := mkHdr 75 ++ encHT ++ encBTR ++ (2 :: rawStream)

/-- `fileZ` wrapped in user-data framing: a 16-byte user-data header
(`MPQ\x1b`, user data size 82, archive header offset 17, content size 1)
followed by one content byte and the whole bare archive at offset 17. -/
def fileF : List Nat := magic1b ++ le32 82 ++ le32 17 ++ le32 1 ++ [0] ++ fileZ

/-- The parsed user-data header of `fileF`. -/
def udhF : MPQUserDataHeader :=
  { magic := magic1b, user_data_size := 82, mpq_header_offset := 17,
    user_data_header_size := 1, content := [0], starcraft2_replay_header := none }

/-! ## Closed form of the encryption table -/

theorem seedIter_seedIter (a b s : Nat) : seedIter a (seedIter b s) = seedIter (a + b) s := by
  induction b generalizing s with
  | zero => rfl
  | succ b ih =>
    show seedIter a (seedIter b (seedStep s)) = seedIter (a + (b + 1)) s
    rw [ih]
    rfl

theorem seedIter_two (s : Nat) : seedStep (seedStep s) = seedIter 2 s := rfl

theorem innerAssign_eq (j seed index : Nat) :
    innerAssign j seed index =
      (seedIter (2 * j) seed,
       (List.range j).map (fun m =>
         (index + 256 * m,
          combineTemps (seedIter (2 * m + 1) seed) (seedIter (2 * m + 2) seed)))) := by
  induction j generalizing seed index with
  | zero => simp [innerAssign, seedIter]
  | succ j ih =>
    rw [innerAssign, ih, List.range_succ_eq_map, List.map_cons, List.map_map]
    refine Prod.ext ?_ ?_
    · rw [seedIter_two, seedIter_seedIter]
      exact congrFun (congrArg seedIter (by omega)) seed
    · rw [List.cons_eq_cons]
      refine ⟨rfl, ?_⟩
      refine congrFun (congrArg List.map (funext fun m => ?_)) (List.range j)
      rw [Function.comp, seedIter_two, seedIter_seedIter, seedIter_seedIter]
      refine Prod.ext (by omega) ?_
      rw [show 2 * m + 1 + 2 = 2 * (Nat.succ m) + 1 by omega,
          show 2 * m + 2 + 2 = 2 * (Nat.succ m) + 2 by omega]

theorem outerAssign_eq (n seed i : Nat) :
    outerAssign n seed i =
      (seedIter (10 * n) seed,
       (List.range n).flatMap (fun d =>
         (List.range 5).map (fun r =>
           (i + d + 256 * r,
            combineTemps (seedIter (10 * d + 2 * r + 1) seed)
              (seedIter (10 * d + 2 * r + 2) seed))))) := by
  induction n generalizing seed i with
  | zero => simp [outerAssign, seedIter]
  | succ n ih =>
    rw [outerAssign]
    simp only [innerAssign_eq, ih]
    generalize List.range 5 = R5
    rw [List.range_succ_eq_map n, List.flatMap_cons, List.flatMap_map]
    refine Prod.ext ?_ ?_
    · rw [seedIter_seedIter]
      exact congrFun (congrArg seedIter (by omega)) seed
    · refine congrArg₂ (· ++ ·) ?_ ?_
      · refine congrFun (congrArg List.map (funext fun r => ?_)) R5
        refine Prod.ext (by omega) ?_
        rw [show 10 * 0 + 2 * r + 1 = 2 * r + 1 by omega,
            show 10 * 0 + 2 * r + 2 = 2 * r + 2 by omega]
      · refine congrArg (List.flatMap (List.range n)) (funext fun d => ?_)
        refine congrFun (congrArg List.map (funext fun r => ?_)) R5
        rw [seedIter_seedIter, seedIter_seedIter]
        refine Prod.ext (by omega) ?_
        rw [show 10 * d + 2 * r + 1 + 2 * 5 = 10 * (Nat.succ d) + 2 * r + 1 by omega,
            show 10 * d + 2 * r + 2 + 2 * 5 = 10 * (Nat.succ d) + 2 * r + 2 by omega]

theorem cryptAssignments_eq :
    cryptAssignments =
      (List.range 256).flatMap (fun i =>
        (List.range 5).map (fun r => (i + 256 * r, cryptValue i r))) := by
  show (outerAssign 256 0x00100001 0).2 = _
  rw [outerAssign_eq]
  show (List.range 256).flatMap
      (fun d => (List.range 5).map (fun r =>
        (0 + d + 256 * r,
         combineTemps (seedIter (10 * d + 2 * r + 1) 0x00100001)
           (seedIter (10 * d + 2 * r + 2) 0x00100001)))) = _
  refine congrArg (List.flatMap (List.range 256)) (funext fun d => ?_)
  refine congrFun (congrArg List.map (funext fun r => ?_)) (List.range 5)
  exact Prod.ext (by omega) rfl

theorem mem_cryptAssignments (k v : Nat) :
    (k, v) ∈ cryptAssignments ↔
      ∃ i, i < 256 ∧ ∃ r, r < 5 ∧ k = i + 256 * r ∧ v = cryptValue i r := by
  rw [cryptAssignments_eq]
  simp only [List.mem_flatMap, List.mem_map, List.mem_range, Prod.mk.injEq]
  constructor
  · rintro ⟨i, hi, r, hr, hk, hv⟩
    exact ⟨i, hi, r, hr, hk.symm, hv.symm⟩
  · rintro ⟨i, hi, r, hr, hk, hv⟩
    exact ⟨i, hi, ⟨r, hr, hk.symm, hv.symm⟩⟩

theorem encryptionTable_lookup (i r : Nat) (hi : i < 256) (hr : r < 5) :
    encryptionTable (i + 256 * r) = some (cryptValue i r) := by
  have hmem : (i + 256 * r, cryptValue i r) ∈ cryptAssignments.reverse :=
    List.mem_reverse.mpr ((mem_cryptAssignments _ _).mpr ⟨i, hi, r, hr, rfl, rfl⟩)
  have hsome : (cryptAssignments.reverse.find? (fun p => p.1 == i + 256 * r)).isSome := by
    rw [List.find?_isSome]
    exact ⟨_, hmem, by simp⟩
  obtain ⟨e, he⟩ := Option.isSome_iff_exists.mp hsome
  have hekey : e.1 = i + 256 * r := by
    have := List.find?_some he
    simpa using this
  have hem : (e.1, e.2) ∈ cryptAssignments := by
    rw [Prod.mk.eta]
    exact List.mem_reverse.mp (List.mem_of_find?_eq_some he)
  obtain ⟨i', hi', r', hr', hk, hv⟩ := (mem_cryptAssignments e.1 e.2).mp hem
  have hir : i' = i ∧ r' = r := by omega
  rw [encryptionTable, he]
  show some e.2 = some (cryptValue i r)
  rw [hv, hir.1, hir.2]

theorem encryptionTable_none {k : Nat} (hk : 1280 ≤ k) : encryptionTable k = none := by
  rw [encryptionTable]
  have hnone : cryptAssignments.reverse.find? (fun p => p.1 == k) = none := by
    rw [List.find?_eq_none]
    intro e he
    have hem : (e.1, e.2) ∈ cryptAssignments := by
      rw [Prod.mk.eta]
      exact List.mem_reverse.mp he
    obtain ⟨i, hi, r, hr, hkk, -⟩ := (mem_cryptAssignments e.1 e.2).mp hem
    simp only [beq_iff_eq]
    omega
  rw [hnone]
  rfl

theorem encryptionTable_isSome_iff (k : Nat) : (encryptionTable k).isSome ↔ k < 1280 := by
  constructor
  · intro h
    by_contra hge
    rw [encryptionTable_none (by omega)] at h
    simp at h
  · intro hk
    have h1 : k % 256 < 256 := Nat.mod_lt _ (by omega)
    have h2 : k / 256 < 5 := by omega
    have h := encryptionTable_lookup (k % 256) (k / 256) h1 h2
    rw [Nat.mod_add_div k 256] at h
    rw [h]
    rfl

/-- Shallow evaluation route for single table lookups: the dict lookup
equals the proven closed form. -/
theorem etbl_lookup (k : Nat) (h : k < 1280) : etbl k = cryptValue (k % 256) (k / 256) := by
  have hl := encryptionTable_lookup (k % 256) (k / 256) (Nat.mod_lt _ (by omega)) (by omega)
  rw [Nat.mod_add_div k 256] at hl
  rw [etbl, hl]
  rfl

/-- Chunked evaluation of the seed sequence (keeps each evaluation step
below the recursion budget). -/
theorem seedAt_chunk {n a b v w : Nat} (hn : n = a + b) (hb : seedAt b = v)
    (ha : seedIter a v = w) : seedAt n = w := by
  rw [hn, seedAt, ← seedIter_seedIter, ← seedAt, hb, ha]

/-- Single step of the `_hash` character loop with all table lookups given
as hypotheses (keeps evaluation shallow). -/
theorem hashStep_eq (t a b c v s1 s2 : Nat)
    (hv : etbl (hashIndex t (mpqUpper c)) = v)
    (h1 : (v ^^^ (a + b)) % M32 = s1)
    (h2 : (mpqUpper c + s1 + b + b * 32 + 3) % M32 = s2) :
    hashStep t (a, b) c = (s1, s2) := by
  simp only [hashStep]
  rw [hv, h1, h2]

/-- Single step of the `_decrypt` word loop with all intermediate values
given as hypotheses (keeps evaluation shallow). -/
theorem decryptLoop_cons_eq (s1 s2 w v s2a s1n s2n : Nat) (ws : List Nat)
    (ha : (s2 + etbl (decryptIndex s1)) % M32 = s2a)
    (hv : (w ^^^ (s1 + s2a)) % M32 = v)
    (h1 : (((M32 - 1 - s1 % M32) * 2097152 + 286331153) % M32) ||| (s1 / 2048 % M32) = s1n)
    (h2 : (v + s2a + s2a * 32 + 3) % M32 = s2n) :
    decryptLoop s1 s2 (w :: ws) = ofWord v ++ decryptLoop s1n s2n ws := by
  simp only [decryptLoop]
  rw [ha, hv, h1, h2]

/-! ### Generated evaluation lemmas (seed milestones, table entries,
hash and decryption values for the concrete inputs) -/

theorem seedAtv_0 : seedAt 0 = 1048577 := rfl

theorem seedAtv_256 : seedAt 256 = 2509142 :=
  @seedAt_chunk 256 256 0 1048577 2509142 (by norm_num) seedAtv_0 (by decide)

theorem seedAtv_512 : seedAt 512 = 489108 :=
  @seedAt_chunk 512 256 256 2509142 489108 (by norm_num) seedAtv_256 (by decide)

theorem seedAtv_768 : seedAt 768 = 2640139 :=
  @seedAt_chunk 768 256 512 489108 2640139 (by norm_num) seedAtv_512 (by decide)

theorem seedAtv_1024 : seedAt 1024 = 1204441 :=
  @seedAt_chunk 1024 256 768 2640139 1204441 (by norm_num) seedAtv_768 (by decide)

theorem seedAtv_1280 : seedAt 1280 = 1055416 :=
  @seedAt_chunk 1280 256 1024 1204441 1055416 (by norm_num) seedAtv_1024 (by decide)

theorem seedAtv_1536 : seedAt 1536 = 1287399 :=
  @seedAt_chunk 1536 256 1280 1055416 1287399 (by norm_num) seedAtv_1280 (by decide)

theorem seedAtv_1792 : seedAt 1792 = 810189 :=
  @seedAt_chunk 1792 256 1536 1287399 810189 (by norm_num) seedAtv_1536 (by decide)

theorem seedAtv_2048 : seedAt 2048 = 1554737 :=
  @seedAt_chunk 2048 256 1792 810189 1554737 (by norm_num) seedAtv_1792 (by decide)

theorem seedAtv_2304 : seedAt 2304 = 2079784 :=
  @seedAt_chunk 2304 256 2048 1554737 2079784 (by norm_num) seedAtv_2048 (by decide)

theorem seedAtv_2560 : seedAt 2560 = 927852 :=
  @seedAt_chunk 2560 256 2304 2079784 927852 (by norm_num) seedAtv_2304 (by decide)

theorem seedAtv_327 : seedAt 327 = 2277983 :=
  @seedAt_chunk 327 71 256 2509142 2277983 (by norm_num) seedAtv_256 (by decide)

theorem seedAtv_328 : seedAt 328 = 2331375 :=
  @seedAt_chunk 328 72 256 2509142 2331375 (by norm_num) seedAtv_256 (by decide)

theorem seedAtv_407 : seedAt 407 = 2204938 :=
  @seedAt_chunk 407 151 256 2509142 2204938 (by norm_num) seedAtv_256 (by decide)

theorem seedAtv_408 : seedAt 408 = 1589359 :=
  @seedAt_chunk 408 152 256 2509142 1589359 (by norm_num) seedAtv_256 (by decide)

theorem seedAtv_417 : seedAt 417 = 2059344 :=
  @seedAt_chunk 417 161 256 2509142 2059344 (by norm_num) seedAtv_256 (by decide)

theorem seedAtv_418 : seedAt 418 = 167327 :=
  @seedAt_chunk 418 162 256 2509142 167327 (by norm_num) seedAtv_256 (by decide)

theorem seedAtv_463 : seedAt 463 = 949755 :=
  @seedAt_chunk 463 207 256 2509142 949755 (by norm_num) seedAtv_256 (by decide)

theorem seedAtv_464 : seedAt 464 = 1278852 :=
  @seedAt_chunk 464 208 256 2509142 1278852 (by norm_num) seedAtv_256 (by decide)

theorem seedAtv_465 : seedAt 465 = 472932 :=
  @seedAt_chunk 465 209 256 2509142 472932 (by norm_num) seedAtv_256 (by decide)

theorem seedAtv_466 : seedAt 466 = 396240 :=
  @seedAt_chunk 466 210 256 2509142 396240 (by norm_num) seedAtv_256 (by decide)

theorem seedAtv_639 : seedAt 639 = 2371377 :=
  @seedAt_chunk 639 127 512 489108 2371377 (by norm_num) seedAtv_512 (by decide)

theorem seedAtv_640 : seedAt 640 = 24610 :=
  @seedAt_chunk 640 128 512 489108 24610 (by norm_num) seedAtv_512 (by decide)

theorem seedAtv_653 : seedAt 653 = 2483567 :=
  @seedAt_chunk 653 141 512 489108 2483567 (by norm_num) seedAtv_512 (by decide)

theorem seedAtv_654 : seedAt 654 = 67345 :=
  @seedAt_chunk 654 142 512 489108 67345 (by norm_num) seedAtv_512 (by decide)

theorem seedAtv_655 : seedAt 655 = 29519 :=
  @seedAt_chunk 655 143 512 489108 29519 (by norm_num) seedAtv_512 (by decide)

theorem seedAtv_656 : seedAt 656 = 893675 :=
  @seedAt_chunk 656 144 512 489108 893675 (by norm_num) seedAtv_512 (by decide)

theorem seedAtv_657 : seedAt 657 = 2657461 :=
  @seedAt_chunk 657 145 512 489108 2657461 (by norm_num) seedAtv_512 (by decide)

theorem seedAtv_658 : seedAt 658 = 2230674 :=
  @seedAt_chunk 658 146 512 489108 2230674 (by norm_num) seedAtv_512 (by decide)

theorem seedAtv_663 : seedAt 663 = 1221231 :=
  @seedAt_chunk 663 151 512 489108 1221231 (by norm_num) seedAtv_512 (by decide)

theorem seedAtv_664 : seedAt 664 = 1658916 :=
  @seedAt_chunk 664 152 512 489108 1658916 (by norm_num) seedAtv_512 (by decide)

theorem seedAtv_665 : seedAt 665 = 445481 :=
  @seedAt_chunk 665 153 512 489108 445481 (by norm_num) seedAtv_512 (by decide)

theorem seedAtv_666 : seedAt 666 = 2557271 :=
  @seedAt_chunk 666 154 512 489108 2557271 (by norm_num) seedAtv_512 (by decide)

theorem seedAtv_667 : seedAt 667 = 891736 :=
  @seedAt_chunk 667 155 512 489108 891736 (by norm_num) seedAtv_512 (by decide)

theorem seedAtv_668 : seedAt 668 = 2415086 :=
  @seedAt_chunk 668 156 512 489108 2415086 (by norm_num) seedAtv_512 (by decide)

theorem seedAtv_677 : seedAt 677 = 779691 :=
  @seedAt_chunk 677 165 512 489108 779691 (by norm_num) seedAtv_512 (by decide)

theorem seedAtv_678 : seedAt 678 = 2390476 :=
  @seedAt_chunk 678 166 512 489108 2390476 (by norm_num) seedAtv_512 (by decide)

theorem seedAtv_693 : seedAt 693 = 2334985 :=
  @seedAt_chunk 693 181 512 489108 2334985 (by norm_num) seedAtv_512 (by decide)

theorem seedAtv_694 : seedAt 694 = 1068016 :=
  @seedAt_chunk 694 182 512 489108 1068016 (by norm_num) seedAtv_512 (by decide)

theorem seedAtv_697 : seedAt 697 = 1359253 :=
  @seedAt_chunk 697 185 512 489108 1359253 (by norm_num) seedAtv_512 (by decide)

theorem seedAtv_698 : seedAt 698 = 2134448 :=
  @seedAt_chunk 698 186 512 489108 2134448 (by norm_num) seedAtv_512 (by decide)

theorem seedAtv_703 : seedAt 703 = 1558144 :=
  @seedAt_chunk 703 191 512 489108 1558144 (by norm_num) seedAtv_512 (by decide)

theorem seedAtv_704 : seedAt 704 = 1829996 :=
  @seedAt_chunk 704 192 512 489108 1829996 (by norm_num) seedAtv_512 (by decide)

theorem seedAtv_727 : seedAt 727 = 262790 :=
  @seedAt_chunk 727 215 512 489108 262790 (by norm_num) seedAtv_512 (by decide)

theorem seedAtv_728 : seedAt 728 = 2090520 :=
  @seedAt_chunk 728 216 512 489108 2090520 (by norm_num) seedAtv_512 (by decide)

theorem seedAtv_733 : seedAt 733 = 1665570 :=
  @seedAt_chunk 733 221 512 489108 1665570 (by norm_num) seedAtv_512 (by decide)

theorem seedAtv_734 : seedAt 734 = 1277231 :=
  @seedAt_chunk 734 222 512 489108 1277231 (by norm_num) seedAtv_512 (by decide)

theorem seedAtv_757 : seedAt 757 = 554316 :=
  @seedAt_chunk 757 245 512 489108 554316 (by norm_num) seedAtv_512 (by decide)

theorem seedAtv_758 : seedAt 758 = 2180631 :=
  @seedAt_chunk 758 246 512 489108 2180631 (by norm_num) seedAtv_512 (by decide)

theorem seedAtv_763 : seedAt 763 = 601021 :=
  @seedAt_chunk 763 251 512 489108 601021 (by norm_num) seedAtv_512 (by decide)

theorem seedAtv_764 : seedAt 764 = 2426350 :=
  @seedAt_chunk 764 252 512 489108 2426350 (by norm_num) seedAtv_512 (by decide)

theorem seedAtv_767 : seedAt 767 = 1989648 :=
  @seedAt_chunk 767 255 512 489108 1989648 (by norm_num) seedAtv_512 (by decide)

theorem seedAtv_797 : seedAt 797 = 2054005 :=
  @seedAt_chunk 797 29 768 2640139 2054005 (by norm_num) seedAtv_768 (by decide)

theorem seedAtv_798 : seedAt 798 = 2296155 :=
  @seedAt_chunk 798 30 768 2640139 2296155 (by norm_num) seedAtv_768 (by decide)

theorem seedAtv_837 : seedAt 837 = 938977 :=
  @seedAt_chunk 837 69 768 2640139 938977 (by norm_num) seedAtv_768 (by decide)

theorem seedAtv_838 : seedAt 838 = 2727805 :=
  @seedAt_chunk 838 70 768 2640139 2727805 (by norm_num) seedAtv_768 (by decide)

theorem seedAtv_843 : seedAt 843 = 1938166 :=
  @seedAt_chunk 843 75 768 2640139 1938166 (by norm_num) seedAtv_768 (by decide)

theorem seedAtv_844 : seedAt 844 = 1797295 :=
  @seedAt_chunk 844 76 768 2640139 1797295 (by norm_num) seedAtv_768 (by decide)

theorem seedAtv_845 : seedAt 845 = 965638 :=
  @seedAt_chunk 845 77 768 2640139 965638 (by norm_num) seedAtv_768 (by decide)

theorem seedAtv_846 : seedAt 846 = 468024 :=
  @seedAt_chunk 846 78 768 2640139 468024 (by norm_num) seedAtv_768 (by decide)

theorem seedAtv_847 : seedAt 847 = 2578943 :=
  @seedAt_chunk 847 79 768 2640139 2578943 (by norm_num) seedAtv_768 (by decide)

theorem seedAtv_848 : seedAt 848 = 804533 :=
  @seedAt_chunk 848 80 768 2640139 804533 (by norm_num) seedAtv_768 (by decide)

theorem seedAtv_883 : seedAt 883 = 653846 :=
  @seedAt_chunk 883 115 768 2640139 653846 (by norm_num) seedAtv_768 (by decide)

theorem seedAtv_884 : seedAt 884 = 640866 :=
  @seedAt_chunk 884 116 768 2640139 640866 (by norm_num) seedAtv_768 (by decide)

theorem seedAtv_885 : seedAt 885 = 1814569 :=
  @seedAt_chunk 885 117 768 2640139 1814569 (by norm_num) seedAtv_768 (by decide)

theorem seedAtv_886 : seedAt 886 = 328685 :=
  @seedAt_chunk 886 118 768 2640139 328685 (by norm_num) seedAtv_768 (by decide)

theorem seedAtv_1129 : seedAt 1129 = 1102750 :=
  @seedAt_chunk 1129 105 1024 1204441 1102750 (by norm_num) seedAtv_1024 (by decide)

theorem seedAtv_1130 : seedAt 1130 = 829806 :=
  @seedAt_chunk 1130 106 1024 1204441 829806 (by norm_num) seedAtv_1024 (by decide)

theorem seedAtv_1159 : seedAt 1159 = 1635119 :=
  @seedAt_chunk 1159 135 1024 1204441 1635119 (by norm_num) seedAtv_1024 (by decide)

theorem seedAtv_1160 : seedAt 1160 = 267059 :=
  @seedAt_chunk 1160 136 1024 1204441 267059 (by norm_num) seedAtv_1024 (by decide)

theorem seedAtv_1199 : seedAt 1199 = 640016 :=
  @seedAt_chunk 1199 175 1024 1204441 640016 (by norm_num) seedAtv_1024 (by decide)

theorem seedAtv_1200 : seedAt 1200 = 1708319 :=
  @seedAt_chunk 1200 176 1024 1204441 1708319 (by norm_num) seedAtv_1024 (by decide)

theorem seedAtv_1639 : seedAt 1639 = 680405 :=
  @seedAt_chunk 1639 103 1536 1287399 680405 (by norm_num) seedAtv_1536 (by decide)

theorem seedAtv_1640 : seedAt 1640 = 1164538 :=
  @seedAt_chunk 1640 104 1536 1287399 1164538 (by norm_num) seedAtv_1536 (by decide)

theorem seedAtv_1799 : seedAt 1799 = 1129294 :=
  @seedAt_chunk 1799 7 1792 810189 1129294 (by norm_num) seedAtv_1792 (by decide)

theorem seedAtv_1800 : seedAt 1800 = 1351603 :=
  @seedAt_chunk 1800 8 1792 810189 1351603 (by norm_num) seedAtv_1792 (by decide)

theorem seedAtv_1879 : seedAt 1879 = 200629 :=
  @seedAt_chunk 1879 87 1792 810189 200629 (by norm_num) seedAtv_1792 (by decide)

theorem seedAtv_1880 : seedAt 1880 = 2709004 :=
  @seedAt_chunk 1880 88 1792 810189 2709004 (by norm_num) seedAtv_1792 (by decide)

theorem seedAtv_2479 : seedAt 2479 = 1978515 :=
  @seedAt_chunk 2479 175 2304 2079784 1978515 (by norm_num) seedAtv_2304 (by decide)

theorem seedAtv_2480 : seedAt 2480 = 1248514 :=
  @seedAt_chunk 2480 176 2304 2079784 1248514 (by norm_num) seedAtv_2304 (by decide)

theorem etblv_302 : etbl 302 = 2113635204 := by
  rw [etbl_lookup 302 (by norm_num)]
  show cryptValue 46 1 = 2113635204
  rw [cryptValue, show 10 * 46 + 2 * 1 + 1 = 463 from rfl,
     show 10 * 46 + 2 * 1 + 2 = 464 from rfl, seedAtv_463, seedAtv_464]
  decide

theorem etblv_321 : etbl 321 = 3849258769 := by
  rw [etbl_lookup 321 (by norm_num)]
  show cryptValue 65 1 = 3849258769
  rw [cryptValue, show 10 * 65 + 2 * 1 + 1 = 653 from rfl,
     show 10 * 65 + 2 * 1 + 2 = 654 from rfl, seedAtv_653, seedAtv_654]
  decide

theorem etblv_322 : etbl 322 = 2725204004 := by
  rw [etbl_lookup 322 (by norm_num)]
  show cryptValue 66 1 = 2725204004
  rw [cryptValue, show 10 * 66 + 2 * 1 + 1 = 663 from rfl,
     show 10 * 66 + 2 * 1 + 2 = 664 from rfl, seedAtv_663, seedAtv_664]
  decide

theorem etblv_325 : etbl 325 = 2701741040 := by
  rw [etbl_lookup 325 (by norm_num)]
  show cryptValue 69 1 = 2701741040
  rw [cryptValue, show 10 * 69 + 2 * 1 + 1 = 693 from rfl,
     show 10 * 69 + 2 * 1 + 2 = 694 from rfl, seedAtv_693, seedAtv_694]
  decide

theorem etblv_326 : etbl 326 = 3330337900 := by
  rw [etbl_lookup 326 (by norm_num)]
  show cryptValue 70 1 = 3330337900
  rw [cryptValue, show 10 * 70 + 2 * 1 + 1 = 703 from rfl,
     show 10 * 70 + 2 * 1 + 2 = 704 from rfl, seedAtv_703, seedAtv_704]
  decide

theorem etblv_329 : etbl 329 = 1780645167 := by
  rw [etbl_lookup 329 (by norm_num)]
  show cryptValue 73 1 = 1780645167
  rw [cryptValue, show 10 * 73 + 2 * 1 + 1 = 733 from rfl,
     show 10 * 73 + 2 * 1 + 2 = 734 from rfl, seedAtv_733, seedAtv_734]
  decide

theorem etblv_332 : etbl 332 = 733808110 := by
  rw [etbl_lookup 332 (by norm_num)]
  show cryptValue 76 1 = 733808110
  rw [cryptValue, show 10 * 76 + 2 * 1 + 1 = 763 from rfl,
     show 10 * 76 + 2 * 1 + 2 = 764 from rfl, seedAtv_763, seedAtv_764]
  decide

theorem etblv_340 : etbl 340 = 2465623215 := by
  rw [etbl_lookup 340 (by norm_num)]
  show cryptValue 84 1 = 2465623215
  rw [cryptValue, show 10 * 84 + 2 * 1 + 1 = 843 from rfl,
     show 10 * 84 + 2 * 1 + 2 = 844 from rfl, seedAtv_843, seedAtv_844]
  decide

theorem etblv_344 : etbl 344 = 4195796834 := by
  rw [etbl_lookup 344 (by norm_num)]
  show cryptValue 88 1 = 4195796834
  rw [cryptValue, show 10 * 88 + 2 * 1 + 1 = 883 from rfl,
     show 10 * 88 + 2 * 1 + 2 = 884 from rfl, seedAtv_883, seedAtv_884]
  decide

theorem etblv_558 : etbl 558 = 929303504 := by
  rw [etbl_lookup 558 (by norm_num)]
  show cryptValue 46 2 = 929303504
  rw [cryptValue, show 10 * 46 + 2 * 2 + 1 = 465 from rfl,
     show 10 * 46 + 2 * 2 + 2 = 466 from rfl, seedAtv_465, seedAtv_466]
  decide

theorem etblv_577 : etbl 577 = 1934598891 := by
  rw [etbl_lookup 577 (by norm_num)]
  show cryptValue 65 2 = 1934598891
  rw [cryptValue, show 10 * 65 + 2 * 2 + 1 = 655 from rfl,
     show 10 * 65 + 2 * 2 + 2 = 656 from rfl, seedAtv_655, seedAtv_656]
  decide

theorem etblv_578 : etbl 578 = 3425240407 := by
  rw [etbl_lookup 578 (by norm_num)]
  show cryptValue 66 2 = 3425240407
  rw [cryptValue, show 10 * 66 + 2 * 2 + 1 = 665 from rfl,
     show 10 * 66 + 2 * 2 + 2 = 666 from rfl, seedAtv_665, seedAtv_666]
  decide

theorem etblv_596 : etbl 596 = 3154519096 := by
  rw [etbl_lookup 596 (by norm_num)]
  show cryptValue 84 2 = 3154519096
  rw [cryptValue, show 10 * 84 + 2 * 2 + 1 = 845 from rfl,
     show 10 * 84 + 2 * 2 + 2 = 846 from rfl, seedAtv_845, seedAtv_846]
  decide

theorem etblv_600 : etbl 600 = 2955477997 := by
  rw [etbl_lookup 600 (by norm_num)]
  show cryptValue 88 2 = 2955477997
  rw [cryptValue, show 10 * 88 + 2 * 2 + 1 = 885 from rfl,
     show 10 * 88 + 2 * 2 + 2 = 886 from rfl, seedAtv_885, seedAtv_886]
  decide

theorem etblv_800 : etbl 800 = 3261043439 := by
  rw [etbl_lookup 800 (by norm_num)]
  show cryptValue 32 3 = 3261043439
  rw [cryptValue, show 10 * 32 + 2 * 3 + 1 = 327 from rfl,
     show 10 * 32 + 2 * 3 + 2 = 328 from rfl, seedAtv_327, seedAtv_328]
  decide

theorem etblv_808 : etbl 808 = 2768912495 := by
  rw [etbl_lookup 808 (by norm_num)]
  show cryptValue 40 3 = 2768912495
  rw [cryptValue, show 10 * 40 + 2 * 3 + 1 = 407 from rfl,
     show 10 * 40 + 2 * 3 + 2 = 408 from rfl, seedAtv_407, seedAtv_408]
  decide

theorem etblv_809 : etbl 809 = 1817218463 := by
  rw [etbl_lookup 809 (by norm_num)]
  show cryptValue 41 3 = 1817218463
  rw [cryptValue, show 10 * 41 + 2 * 3 + 1 = 417 from rfl,
     show 10 * 41 + 2 * 3 + 2 = 418 from rfl, seedAtv_417, seedAtv_418]
  decide

theorem etblv_833 : etbl 833 = 2360674706 := by
  rw [etbl_lookup 833 (by norm_num)]
  show cryptValue 65 3 = 2360674706
  rw [cryptValue, show 10 * 65 + 2 * 3 + 1 = 657 from rfl,
     show 10 * 65 + 2 * 3 + 2 = 658 from rfl, seedAtv_657, seedAtv_658]
  decide

theorem etblv_834 : etbl 834 = 2606291438 := by
  rw [etbl_lookup 834 (by norm_num)]
  show cryptValue 66 3 = 2606291438
  rw [cryptValue, show 10 * 66 + 2 * 3 + 1 = 667 from rfl,
     show 10 * 66 + 2 * 3 + 2 = 668 from rfl, seedAtv_667, seedAtv_668]
  decide

theorem etblv_835 : etbl 835 = 3853220300 := by
  rw [etbl_lookup 835 (by norm_num)]
  show cryptValue 67 3 = 3853220300
  rw [cryptValue, show 10 * 67 + 2 * 3 + 1 = 677 from rfl,
     show 10 * 67 + 2 * 3 + 2 = 678 from rfl, seedAtv_677, seedAtv_678]
  decide

theorem etblv_837 : etbl 837 = 3180695984 := by
  rw [etbl_lookup 837 (by norm_num)]
  show cryptValue 69 3 = 3180695984
  rw [cryptValue, show 10 * 69 + 2 * 3 + 1 = 697 from rfl,
     show 10 * 69 + 2 * 3 + 2 = 698 from rfl, seedAtv_697, seedAtv_698]
  decide

theorem etblv_840 : etbl 840 = 42395160 := by
  rw [etbl_lookup 840 (by norm_num)]
  show cryptValue 72 3 = 42395160
  rw [cryptValue, show 10 * 72 + 2 * 3 + 1 = 727 from rfl,
     show 10 * 72 + 2 * 3 + 2 = 728 from rfl, seedAtv_727, seedAtv_728]
  decide

theorem etblv_843 : etbl 843 = 1967932951 := by
  rw [etbl_lookup 843 (by norm_num)]
  show cryptValue 75 3 = 1967932951
  rw [cryptValue, show 10 * 75 + 2 * 3 + 1 = 757 from rfl,
     show 10 * 75 + 2 * 3 + 2 = 758 from rfl, seedAtv_757, seedAtv_758]
  decide

theorem etblv_844 : etbl 844 = 1544571147 := by
  rw [etbl_lookup 844 (by norm_num)]
  show cryptValue 76 3 = 1544571147
  rw [cryptValue, show 10 * 76 + 2 * 3 + 1 = 767 from rfl,
     show 10 * 76 + 2 * 3 + 2 = 768 from rfl, seedAtv_767, seedAtv_768]
  decide

theorem etblv_847 : etbl 847 = 1467287899 := by
  rw [etbl_lookup 847 (by norm_num)]
  show cryptValue 79 3 = 1467287899
  rw [cryptValue, show 10 * 79 + 2 * 3 + 1 = 797 from rfl,
     show 10 * 79 + 2 * 3 + 2 = 798 from rfl, seedAtv_797, seedAtv_798]
  decide

theorem etblv_851 : etbl 851 = 1407295357 := by
  rw [etbl_lookup 851 (by norm_num)]
  show cryptValue 83 3 = 1407295357
  rw [cryptValue, show 10 * 83 + 2 * 3 + 1 = 837 from rfl,
     show 10 * 83 + 2 * 3 + 2 = 838 from rfl, seedAtv_837, seedAtv_838]
  decide

theorem etblv_852 : etbl 852 = 1509902005 := by
  rw [etbl_lookup 852 (by norm_num)]
  show cryptValue 84 3 = 1509902005
  rw [cryptValue, show 10 * 84 + 2 * 3 + 1 = 847 from rfl,
     show 10 * 84 + 2 * 3 + 2 = 848 from rfl, seedAtv_847, seedAtv_848]
  decide

theorem etblv_1087 : etbl 1087 = 791765026 := by
  rw [etbl_lookup 1087 (by norm_num)]
  show cryptValue 63 4 = 791765026
  rw [cryptValue, show 10 * 63 + 2 * 4 + 1 = 639 from rfl,
     show 10 * 63 + 2 * 4 + 2 = 640 from rfl, seedAtv_639, seedAtv_640]
  decide

theorem etblv_1136 : etbl 1136 = 3550390638 := by
  rw [etbl_lookup 1136 (by norm_num)]
  show cryptValue 112 4 = 3550390638
  rw [cryptValue, show 10 * 112 + 2 * 4 + 1 = 1129 from rfl,
     show 10 * 112 + 2 * 4 + 2 = 1130 from rfl, seedAtv_1129, seedAtv_1130]
  decide

theorem etblv_1139 : etbl 1139 = 4079948595 := by
  rw [etbl_lookup 1139 (by norm_num)]
  show cryptValue 115 4 = 4079948595
  rw [cryptValue, show 10 * 115 + 2 * 4 + 1 = 1159 from rfl,
     show 10 * 115 + 2 * 4 + 2 = 1160 from rfl, seedAtv_1159, seedAtv_1160]
  decide

theorem etblv_1143 : etbl 1143 = 3289387295 := by
  rw [etbl_lookup 1143 (by norm_num)]
  show cryptValue 119 4 = 3289387295
  rw [cryptValue, show 10 * 119 + 2 * 4 + 1 = 1199 from rfl,
     show 10 * 119 + 2 * 4 + 2 = 1200 from rfl, seedAtv_1199, seedAtv_1200]
  decide

theorem etblv_1187 : etbl 1187 = 1641399546 := by
  rw [etbl_lookup 1187 (by norm_num)]
  show cryptValue 163 4 = 1641399546
  rw [cryptValue, show 10 * 163 + 2 * 4 + 1 = 1639 from rfl,
     show 10 * 163 + 2 * 4 + 2 = 1640 from rfl, seedAtv_1639, seedAtv_1640]
  decide

theorem etblv_1203 : etbl 1203 = 995008435 := by
  rw [etbl_lookup 1203 (by norm_num)]
  show cryptValue 179 4 = 995008435
  rw [cryptValue, show 10 * 179 + 2 * 4 + 1 = 1799 from rfl,
     show 10 * 179 + 2 * 4 + 2 = 1800 from rfl, seedAtv_1799, seedAtv_1800]
  decide

theorem etblv_1211 : etbl 1211 = 263542284 := by
  rw [etbl_lookup 1211 (by norm_num)]
  show cryptValue 187 4 = 263542284
  rw [cryptValue, show 10 * 187 + 2 * 4 + 1 = 1879 from rfl,
     show 10 * 187 + 2 * 4 + 2 = 1880 from rfl, seedAtv_1879, seedAtv_1880]
  decide

theorem etblv_1271 : etbl 1271 = 814943490 := by
  rw [etbl_lookup 1271 (by norm_num)]
  show cryptValue 247 4 = 814943490
  rw [cryptValue, show 10 * 247 + 2 * 4 + 1 = 2479 from rfl,
     show 10 * 247 + 2 * 4 + 2 = 2480 from rfl, seedAtv_2479, seedAtv_2480]
  decide

theorem hstep_atxt1_0 : hashStep 1 (2146271213, 4008636142) 97 = (2343791050, 1484797628) :=
  hashStep_eq 1 2146271213 4008636142 97 3849258769 2343791050 1484797628
    (by rw [show hashIndex 1 (mpqUpper 97) = 321 from by decide]; exact etblv_321)
    (by decide) (by decide)

theorem hstep_atxt1_1 : hashStep 1 (2343791050, 1484797628) 46 = (2580030210, 38744431) :=
  hashStep_eq 1 2343791050 1484797628 46 2113635204 2580030210 38744431
    (by rw [show hashIndex 1 (mpqUpper 46) = 302 from by decide]; exact etblv_302)
    (by decide) (by decide)

theorem hstep_atxt1_2 : hashStep 1 (2580030210, 38744431) 116 = (249641182, 1528207492) :=
  hashStep_eq 1 2580030210 38744431 116 2465623215 249641182 1528207492
    (by rw [show hashIndex 1 (mpqUpper 116) = 340 from by decide]; exact etblv_340)
    (by decide) (by decide)

theorem hstep_atxt1_3 : hashStep 1 (249641182, 1528207492) 120 = (2481001984, 1372241759) :=
  hashStep_eq 1 249641182 1528207492 120 4195796834 2481001984 1372241759
    (by rw [show hashIndex 1 (mpqUpper 120) = 344 from by decide]; exact etblv_344)
    (by decide) (by decide)

theorem hstep_atxt1_4 : hashStep 1 (2481001984, 1372241759) 116 = (2002631152, 41969030) :=
  hashStep_eq 1 2481001984 1372241759 116 2465623215 2002631152 41969030
    (by rw [show hashIndex 1 (mpqUpper 116) = 340 from by decide]; exact etblv_340)
    (by decide) (by decide)

theorem hashv_atxt1 : mpqHash (strBytes "a.txt") 1 = 2002631152 := by
  rw [show strBytes "a.txt" = [97, 46, 116, 120, 116] from by decide, mpqHash]
  rw [List.foldl_cons, hstep_atxt1_0, List.foldl_cons, hstep_atxt1_1, List.foldl_cons, hstep_atxt1_2, List.foldl_cons, hstep_atxt1_3, List.foldl_cons, hstep_atxt1_4, List.foldl_nil]

theorem hstep_atxt2_0 : hashStep 2 (2146271213, 4008636142) 97 = (496225328, 3932199202) :=
  hashStep_eq 2 2146271213 4008636142 97 1934598891 496225328 3932199202
    (by rw [show hashIndex 2 (mpqUpper 97) = 577 from by decide]; exact etblv_577)
    (by decide) (by decide)

theorem hstep_atxt2_1 : hashStep 2 (496225328, 3932199202) 46 = (814771842, 1728326677) :=
  hashStep_eq 2 496225328 3932199202 46 929303504 814771842 1728326677
    (by rw [show hashIndex 2 (mpqUpper 46) = 558 from by decide]; exact etblv_558)
    (by decide) (by decide)

theorem hstep_atxt2_2 : hashStep 2 (814771842, 1728326677) 116 = (731037359, 1931242939) :=
  hashStep_eq 2 814771842 1728326677 116 3154519096 731037359 1931242939
    (by rw [show hashIndex 2 (mpqUpper 116) = 596 from by decide]; exact etblv_596)
    (by decide) (by decide)

theorem hstep_atxt2_3 : hashStep 2 (731037359, 1931242939) 120 = (780545927, 87053565) :=
  hashStep_eq 2 731037359 1931242939 120 2955477997 780545927 87053565
    (by rw [show hashIndex 2 (mpqUpper 120) = 600 from by decide]; exact etblv_600)
    (by decide) (by decide)

theorem hstep_atxt2_4 : hashStep 2 (780545927, 87053565) 116 = (2410717372, 988517808) :=
  hashStep_eq 2 780545927 87053565 116 3154519096 2410717372 988517808
    (by rw [show hashIndex 2 (mpqUpper 116) = 596 from by decide]; exact etblv_596)
    (by decide) (by decide)

theorem hashv_atxt2 : mpqHash (strBytes "a.txt") 2 = 2410717372 := by
  rw [show strBytes "a.txt" = [97, 46, 116, 120, 116] from by decide, mpqHash]
  rw [List.foldl_cons, hstep_atxt2_0, List.foldl_cons, hstep_atxt2_1, List.foldl_cons, hstep_atxt2_2, List.foldl_cons, hstep_atxt2_3, List.foldl_cons, hstep_atxt2_4, List.foldl_nil]

theorem hstep_btxt1_0 : hashStep 1 (2146271213, 4008636142) 98 = (3434299135, 2575305714) :=
  hashStep_eq 1 2146271213 4008636142 98 2725204004 3434299135 2575305714
    (by rw [show hashIndex 1 (mpqUpper 98) = 322 from by decide]; exact etblv_322)
    (by decide) (by decide)

theorem hstep_btxt1_1 : hashStep 1 (3434299135, 2575305714) 46 = (466143605, 3846853592) :=
  hashStep_eq 1 3434299135 2575305714 46 2113635204 466143605 3846853592
    (by rw [show hashIndex 1 (mpqUpper 46) = 302 from by decide]; exact etblv_302)
    (by decide) (by decide)

theorem hstep_btxt1_2 : hashStep 1 (466143605, 3846853592) 116 = (2481287650, 578437393) :=
  hashStep_eq 1 466143605 3846853592 116 2465623215 2481287650 578437393
    (by rw [show hashIndex 1 (mpqUpper 116) = 340 from by decide]; exact etblv_340)
    (by decide) (by decide)

theorem hstep_btxt1_3 : hashStep 1 (2481287650, 578437393) 120 = (1279882641, 3188447517) :=
  hashStep_eq 1 2481287650 578437393 120 4195796834 1279882641 3188447517
    (by rw [show hashIndex 1 (mpqUpper 120) = 344 from by decide]; exact etblv_344)
    (by decide) (by decide)

theorem hstep_btxt1_4 : hashStep 1 (1279882641, 3188447517) 116 = (2560827905, 405413653) :=
  hashStep_eq 1 1279882641 3188447517 116 2465623215 2560827905 405413653
    (by rw [show hashIndex 1 (mpqUpper 116) = 340 from by decide]; exact etblv_340)
    (by decide) (by decide)

theorem hashv_btxt1 : mpqHash (strBytes "b.txt") 1 = 2560827905 := by
  rw [show strBytes "b.txt" = [98, 46, 116, 120, 116] from by decide, mpqHash]
  rw [List.foldl_cons, hstep_btxt1_0, List.foldl_cons, hstep_btxt1_1, List.foldl_cons, hstep_btxt1_2, List.foldl_cons, hstep_btxt1_3, List.foldl_cons, hstep_btxt1_4, List.foldl_nil]

theorem hstep_btxt2_0 : hashStep 2 (2146271213, 4008636142) 98 = (2733992844, 1874999423) :=
  hashStep_eq 2 2146271213 4008636142 98 3425240407 2733992844 1874999423
    (by rw [show hashIndex 2 (mpqUpper 98) = 578 from by decide]; exact etblv_578)
    (by decide) (by decide)

theorem hstep_btxt2_1 : hashStep 2 (2733992844, 1874999423) 46 = (634630107, 2380068971) :=
  hashStep_eq 2 2733992844 1874999423 46 929303504 634630107 2380068971
    (by rw [show hashIndex 2 (mpqUpper 46) = 558 from by decide]; exact etblv_558)
    (by decide) (by decide)

theorem hstep_btxt2_2 : hashStep 2 (634630107, 2380068971) 116 = (263621758, 1496486560) :=
  hashStep_eq 2 634630107 2380068971 116 3154519096 263621758 1496486560
    (by rw [show hashIndex 2 (mpqUpper 116) = 596 from by decide]; exact etblv_596)
    (by decide) (by decide)

theorem hstep_btxt2_3 : hashStep 2 (263621758, 1496486560) 120 = (3636468979, 1480917998) :=
  hashStep_eq 2 263621758 1496486560 120 2955477997 3636468979 1480917998
    (by rw [show hashIndex 2 (mpqUpper 120) = 600 from by decide]; exact etblv_600)
    (by decide) (by decide)

theorem hstep_btxt2_4 : hashStep 2 (3636468979, 1480917998) 116 = (2365785305, 3991439070) :=
  hashStep_eq 2 3636468979 1480917998 116 3154519096 2365785305 3991439070
    (by rw [show hashIndex 2 (mpqUpper 116) = 596 from by decide]; exact etblv_596)
    (by decide) (by decide)

theorem hashv_btxt2 : mpqHash (strBytes "b.txt") 2 = 2365785305 := by
  rw [show strBytes "b.txt" = [98, 46, 116, 120, 116] from by decide, mpqHash]
  rw [List.foldl_cons, hstep_btxt2_0, List.foldl_cons, hstep_btxt2_1, List.foldl_cons, hstep_btxt2_2, List.foldl_cons, hstep_btxt2_3, List.foldl_cons, hstep_btxt2_4, List.foldl_nil]

theorem hstep_htk_0 : hashStep 3 (2146271213, 4008636142) 40 = (3419811508, 2560818061) :=
  hashStep_eq 3 2146271213 4008636142 40 2768912495 3419811508 2560818061
    (by rw [show hashIndex 3 (mpqUpper 40) = 808 from by decide]; exact etblv_808)
    (by decide) (by decide)

theorem hstep_htk_1 : hashStep 3 (3419811508, 2560818061) 104 = (1728040025, 335690193) :=
  hashStep_eq 3 3419811508 2560818061 104 42395160 1728040025 335690193
    (by rw [show hashIndex 3 (mpqUpper 104) = 840 from by decide]; exact etblv_840)
    (by decide) (by decide)

theorem hstep_htk_2 : hashStep 3 (1728040025, 335690193) 97 = (4155969464, 2348844013) :=
  hashStep_eq 3 1728040025 335690193 97 2360674706 4155969464 2348844013
    (by rw [show hashIndex 3 (mpqUpper 97) = 833 from by decide]; exact etblv_833)
    (by decide) (by decide)

theorem hstep_htk_3 : hashStep 3 (4155969464, 2348844013) 115 = (3495300312, 3697741499) :=
  hashStep_eq 3 4155969464 2348844013 115 1407295357 3495300312 3697741499
    (by rw [show hashIndex 3 (mpqUpper 115) = 851 from by decide]; exact etblv_851)
    (by decide) (by decide)

theorem hstep_htk_4 : hashStep 3 (3495300312, 3697741499) 104 = (2923167115, 394585073) :=
  hashStep_eq 3 3495300312 3697741499 104 42395160 2923167115 394585073
    (by rw [show hashIndex 3 (mpqUpper 104) = 840 from by decide]; exact etblv_840)
    (by decide) (by decide)

theorem hstep_htk_5 : hashStep 3 (2923167115, 394585073) 32 = (127890323, 264295879) :=
  hashStep_eq 3 2923167115 394585073 32 3261043439 127890323 264295879
    (by rw [show hashIndex 3 (mpqUpper 32) = 800 from by decide]; exact etblv_800)
    (by decide) (by decide)

theorem hstep_htk_6 : hashStep 3 (127890323, 264295879) 116 = (1319047151, 1450876653) :=
  hashStep_eq 3 127890323 264295879 116 1509902005 1319047151 1450876653
    (by rw [show hashIndex 3 (mpqUpper 116) = 852 from by decide]; exact etblv_852)
    (by decide) (by decide)

theorem hstep_htk_7 : hashStep 3 (1319047151, 1450876653) 97 = (699180878, 1333470239) :=
  hashStep_eq 3 1319047151 1450876653 97 2360674706 699180878 1333470239
    (by rw [show hashIndex 3 (mpqUpper 97) = 833 from by decide]; exact etblv_833)
    (by decide) (by decide)

theorem hstep_htk_8 : hashStep 3 (699180878, 1333470239) 98 = (3799978627, 559856327) :=
  hashStep_eq 3 699180878 1333470239 98 2606291438 3799978627 559856327
    (by rw [show hashIndex 3 (mpqUpper 98) = 834 from by decide]; exact etblv_834)
    (by decide) (by decide)

theorem hstep_htk_9 : hashStep 3 (3799978627, 559856327) 108 = (1607304257, 2902693943) :=
  hashStep_eq 3 3799978627 559856327 108 1544571147 1607304257 2902693943
    (by rw [show hashIndex 3 (mpqUpper 108) = 844 from by decide]; exact etblv_844)
    (by decide) (by decide)

theorem hstep_htk_10 : hashStep 3 (1607304257, 2902693943) 101 = (2974059976, 4273679655) :=
  hashStep_eq 3 1607304257 2902693943 101 3180695984 2974059976 4273679655
    (by rw [show hashIndex 3 (mpqUpper 101) = 837 from by decide]; exact etblv_837)
    (by decide) (by decide)

theorem hstep_htk_11 : hashStep 3 (2974059976, 4273679655) 41 = (3283040112, 2580548003) :=
  hashStep_eq 3 2974059976 4273679655 41 1817218463 3283040112 2580548003
    (by rw [show hashIndex 3 (mpqUpper 41) = 809 from by decide]; exact etblv_809)
    (by decide) (by decide)

theorem hashv_htk : mpqHash (strBytes "(hash table)") 3 = 3283040112 := by
  rw [show strBytes "(hash table)" = [40, 104, 97, 115, 104, 32, 116, 97, 98, 108, 101, 41] from by decide, mpqHash]
  rw [List.foldl_cons, hstep_htk_0, List.foldl_cons, hstep_htk_1, List.foldl_cons, hstep_htk_2, List.foldl_cons, hstep_htk_3, List.foldl_cons, hstep_htk_4, List.foldl_cons, hstep_htk_5, List.foldl_cons, hstep_htk_6, List.foldl_cons, hstep_htk_7, List.foldl_cons, hstep_htk_8, List.foldl_cons, hstep_htk_9, List.foldl_cons, hstep_htk_10, List.foldl_cons, hstep_htk_11, List.foldl_nil]

theorem hstep_btk_0 : hashStep 3 (2146271213, 4008636142) 40 = (3419811508, 2560818061) :=
  hashStep_eq 3 2146271213 4008636142 40 2768912495 3419811508 2560818061
    (by rw [show hashIndex 3 (mpqUpper 40) = 808 from by decide]; exact etblv_808)
    (by decide) (by decide)

theorem hstep_btk_1 : hashStep 3 (3419811508, 2560818061) 98 = (4280415151, 2888065313) :=
  hashStep_eq 3 3419811508 2560818061 98 2606291438 4280415151 2888065313
    (by rw [show hashIndex 3 (mpqUpper 98) = 834 from by decide]; exact etblv_834)
    (by decide) (by decide)

theorem hstep_btk_2 : hashStep 3 (4280415151, 2888065313) 108 = (4149616091, 671523691) :=
  hashStep_eq 3 4280415151 2888065313 108 1544571147 4149616091 671523691
    (by rw [show hashIndex 3 (mpqUpper 108) = 844 from by decide]; exact etblv_844)
    (by decide) (by decide)

theorem hstep_btk_3 : hashStep 3 (4149616091, 671523691) 111 = (1210697757, 1896143162) :=
  hashStep_eq 3 4149616091 671523691 111 1467287899 1210697757 1896143162
    (by rw [show hashIndex 3 (mpqUpper 111) = 847 from by decide]; exact etblv_847)
    (by decide) (by decide)

theorem hstep_btk_4 : hashStep 3 (1210697757, 1896143162) 99 = (1552275611, 3995457883) :=
  hashStep_eq 3 1210697757 1896143162 99 3853220300 1552275611 3995457883
    (by rw [show hashIndex 3 (mpqUpper 99) = 835 from by decide]; exact etblv_835)
    (by decide) (by decide)

theorem hstep_btk_5 : hashStep 3 (1552275611, 3995457883) 107 = (1072166881, 4073258218) :=
  hashStep_eq 3 1552275611 3995457883 107 1967932951 1072166881 4073258218
    (by rw [show hashIndex 3 (mpqUpper 107) = 843 from by decide]; exact etblv_843)
    (by decide) (by decide)

theorem hstep_btk_6 : hashStep 3 (1072166881, 4073258218) 32 = (4042221092, 1020788849) :=
  hashStep_eq 3 1072166881 4073258218 32 3261043439 4042221092 1020788849
    (by rw [show hashIndex 3 (mpqUpper 32) = 800 from by decide]; exact etblv_800)
    (by decide) (by decide)

theorem hstep_btk_7 : hashStep 3 (4042221092, 1020788849) 116 = (1949835296, 1276129032) :=
  hashStep_eq 3 4042221092 1020788849 116 1509902005 1949835296 1276129032
    (by rw [show hashIndex 3 (mpqUpper 116) = 852 from by decide]; exact etblv_852)
    (by decide) (by decide)

theorem hstep_btk_8 : hashStep 3 (1949835296, 1276129032) 97 = (1291667130, 454252294) :=
  hashStep_eq 3 1949835296 1276129032 97 2360674706 1291667130 454252294
    (by rw [show hashIndex 3 (mpqUpper 97) = 833 from by decide]; exact etblv_833)
    (by decide) (by decide)

theorem hstep_btk_9 : hashStep 3 (1291667130, 454252294) 98 = (4081599534, 1892056121) :=
  hashStep_eq 3 1291667130 454252294 98 2606291438 4081599534 1892056121
    (by rw [show hashIndex 3 (mpqUpper 98) = 834 from by decide]; exact etblv_834)
    (by decide) (by decide)

theorem hstep_btk_10 : hashStep 3 (4081599534, 1892056121) 108 = (941525356, 3249835284) :=
  hashStep_eq 3 4081599534 1892056121 108 1544571147 941525356 3249835284
    (by rw [show hashIndex 3 (mpqUpper 108) = 844 from by decide]; exact etblv_844)
    (by decide) (by decide)

theorem hstep_btk_11 : hashStep 3 (941525356, 3249835284) 101 = (1145472816, 1015854860) :=
  hashStep_eq 3 941525356 3249835284 101 3180695984 1145472816 1015854860
    (by rw [show hashIndex 3 (mpqUpper 101) = 837 from by decide]; exact etblv_837)
    (by decide) (by decide)

theorem hstep_btk_12 : hashStep 3 (1145472816, 1015854860) 41 = (3968054179, 3131526235) :=
  hashStep_eq 3 1145472816 1015854860 41 1817218463 3968054179 3131526235
    (by rw [show hashIndex 3 (mpqUpper 41) = 809 from by decide]; exact etblv_809)
    (by decide) (by decide)

theorem hashv_btk : mpqHash (strBytes "(block table)") 3 = 3968054179 := by
  rw [show strBytes "(block table)" = [40, 98, 108, 111, 99, 107, 32, 116, 97, 98, 108, 101, 41] from by decide, mpqHash]
  rw [List.foldl_cons, hstep_btk_0, List.foldl_cons, hstep_btk_1, List.foldl_cons, hstep_btk_2, List.foldl_cons, hstep_btk_3, List.foldl_cons, hstep_btk_4, List.foldl_cons, hstep_btk_5, List.foldl_cons, hstep_btk_6, List.foldl_cons, hstep_btk_7, List.foldl_cons, hstep_btk_8, List.foldl_cons, hstep_btk_9, List.foldl_cons, hstep_btk_10, List.foldl_cons, hstep_btk_11, List.foldl_cons, hstep_btk_12, List.foldl_nil]

theorem hstep_filetxt_0 : hashStep 1 (2146271213, 4008636142) 102 = (2824635063, 1965641646) :=
  hashStep_eq 1 2146271213 4008636142 102 3330337900 2824635063 1965641646
    (by rw [show hashIndex 1 (mpqUpper 102) = 326 from by decide]; exact etblv_326)
    (by decide) (by decide)

theorem hstep_filetxt_1 : hashStep 1 (2824635063, 1965641646) 105 = (2007478090, 2449143044) :=
  hashStep_eq 1 2824635063 1965641646 105 1780645167 2007478090 2449143044
    (by rw [show hashIndex 1 (mpqUpper 105) = 329 from by decide]; exact etblv_329)
    (by decide) (by decide)

theorem hstep_filetxt_2 : hashStep 1 (2007478090, 2449143044) 108 = (572498336, 4084807539) :=
  hashStep_eq 1 2007478090 2449143044 108 733808110 572498336 4084807539
    (by rw [show hashIndex 1 (mpqUpper 108) = 332 from by decide]; exact etblv_332)
    (by decide) (by decide)

theorem hstep_filetxt_3 : hashStep 1 (572498336, 4084807539) 101 = (3029439203, 389134590) :=
  hashStep_eq 1 572498336 4084807539 101 2701741040 3029439203 389134590
    (by rw [show hashIndex 1 (mpqUpper 101) = 325 from by decide]; exact etblv_325)
    (by decide) (by decide)

theorem hstep_filetxt_4 : hashStep 1 (3029439203, 389134590) 46 = (3057174629, 3013714260) :=
  hashStep_eq 1 3029439203 389134590 46 2113635204 3057174629 3013714260
    (by rw [show hashIndex 1 (mpqUpper 46) = 302 from by decide]; exact etblv_302)
    (by decide) (by decide)

theorem hstep_filetxt_5 : hashStep 1 (3057174629, 3013714260) 116 = (4213966102, 587321665) :=
  hashStep_eq 1 3057174629 3013714260 116 2465623215 4213966102 587321665
    (by rw [show hashIndex 1 (mpqUpper 116) = 340 from by decide]; exact etblv_340)
    (by decide) (by decide)

theorem hstep_filetxt_6 : hashStep 1 (4213966102, 587321665) 120 = (3829076277, 1735854833) :=
  hashStep_eq 1 4213966102 587321665 120 4195796834 3829076277 1735854833
    (by rw [show hashIndex 1 (mpqUpper 120) = 344 from by decide]; exact etblv_344)
    (by decide) (by decide)

theorem hstep_filetxt_7 : hashStep 1 (3829076277, 1735854833) 116 = (3645141129, 798808561) :=
  hashStep_eq 1 3829076277 1735854833 116 2465623215 3645141129 798808561
    (by rw [show hashIndex 1 (mpqUpper 116) = 340 from by decide]; exact etblv_340)
    (by decide) (by decide)

theorem hashv_filetxt : mpqHash (strBytes "file.txt") 1 = 3645141129 := by
  rw [show strBytes "file.txt" = [102, 105, 108, 101, 46, 116, 120, 116] from by decide, mpqHash]
  rw [List.foldl_cons, hstep_filetxt_0, List.foldl_cons, hstep_filetxt_1, List.foldl_cons, hstep_filetxt_2, List.foldl_cons, hstep_filetxt_3, List.foldl_cons, hstep_filetxt_4, List.foldl_cons, hstep_filetxt_5, List.foldl_cons, hstep_filetxt_6, List.foldl_cons, hstep_filetxt_7, List.foldl_nil]

theorem hstep_FILETXT_0 : hashStep 1 (2146271213, 4008636142) 70 = (2824635063, 1965641646) :=
  hashStep_eq 1 2146271213 4008636142 70 3330337900 2824635063 1965641646
    (by rw [show hashIndex 1 (mpqUpper 70) = 326 from by decide]; exact etblv_326)
    (by decide) (by decide)

theorem hstep_FILETXT_1 : hashStep 1 (2824635063, 1965641646) 73 = (2007478090, 2449143044) :=
  hashStep_eq 1 2824635063 1965641646 73 1780645167 2007478090 2449143044
    (by rw [show hashIndex 1 (mpqUpper 73) = 329 from by decide]; exact etblv_329)
    (by decide) (by decide)

theorem hstep_FILETXT_2 : hashStep 1 (2007478090, 2449143044) 76 = (572498336, 4084807539) :=
  hashStep_eq 1 2007478090 2449143044 76 733808110 572498336 4084807539
    (by rw [show hashIndex 1 (mpqUpper 76) = 332 from by decide]; exact etblv_332)
    (by decide) (by decide)

theorem hstep_FILETXT_3 : hashStep 1 (572498336, 4084807539) 69 = (3029439203, 389134590) :=
  hashStep_eq 1 572498336 4084807539 69 2701741040 3029439203 389134590
    (by rw [show hashIndex 1 (mpqUpper 69) = 325 from by decide]; exact etblv_325)
    (by decide) (by decide)

theorem hstep_FILETXT_4 : hashStep 1 (3029439203, 389134590) 46 = (3057174629, 3013714260) :=
  hashStep_eq 1 3029439203 389134590 46 2113635204 3057174629 3013714260
    (by rw [show hashIndex 1 (mpqUpper 46) = 302 from by decide]; exact etblv_302)
    (by decide) (by decide)

theorem hstep_FILETXT_5 : hashStep 1 (3057174629, 3013714260) 84 = (4213966102, 587321665) :=
  hashStep_eq 1 3057174629 3013714260 84 2465623215 4213966102 587321665
    (by rw [show hashIndex 1 (mpqUpper 84) = 340 from by decide]; exact etblv_340)
    (by decide) (by decide)

theorem hstep_FILETXT_6 : hashStep 1 (4213966102, 587321665) 88 = (3829076277, 1735854833) :=
  hashStep_eq 1 4213966102 587321665 88 4195796834 3829076277 1735854833
    (by rw [show hashIndex 1 (mpqUpper 88) = 344 from by decide]; exact etblv_344)
    (by decide) (by decide)

theorem hstep_FILETXT_7 : hashStep 1 (3829076277, 1735854833) 84 = (3645141129, 798808561) :=
  hashStep_eq 1 3829076277 1735854833 84 2465623215 3645141129 798808561
    (by rw [show hashIndex 1 (mpqUpper 84) = 340 from by decide]; exact etblv_340)
    (by decide) (by decide)

theorem hashv_FILETXT : mpqHash (strBytes "FILE.TXT") 1 = 3645141129 := by
  rw [show strBytes "FILE.TXT" = [70, 73, 76, 69, 46, 84, 88, 84] from by decide, mpqHash]
  rw [List.foldl_cons, hstep_FILETXT_0, List.foldl_cons, hstep_FILETXT_1, List.foldl_cons, hstep_FILETXT_2, List.foldl_cons, hstep_FILETXT_3, List.foldl_cons, hstep_FILETXT_4, List.foldl_cons, hstep_FILETXT_5, List.foldl_cons, hstep_FILETXT_6, List.foldl_cons, hstep_FILETXT_7, List.foldl_nil]

theorem dstep_encHT_0 (ws : List Nat) :
    decryptLoop 3283040112 4008636142 (4049696316 :: ws) = ofWord 2002631152 ++ decryptLoop 586774007 2342411727 ws :=
  decryptLoop_cons_eq 3283040112 4008636142 4049696316 2002631152 3264059484 586774007 2342411727 ws
    (by rw [show decryptIndex 3283040112 = 1136 from by decide]; rw [etblv_1136]; decide)
    (by decide) (by decide) (by decide)

theorem dstep_encHT_1 (ws : List Nat) :
    decryptLoop 586774007 2342411727 (1352286324 :: ws) = ofWord 2410717372 ++ decryptLoop 1377132351 3524224432 ws :=
  decryptLoop_cons_eq 586774007 2342411727 1352286324 2410717372 3157355217 1377132351 3524224432 ws
    (by rw [show decryptIndex 586774007 = 1271 from by decide]; rw [etblv_1271]; decide)
    (by decide) (by decide) (by decide)

theorem dstep_encHT_2 (ws : List Nat) :
    decryptLoop 1377132351 3524224432 (1398154513 :: ws) = ofWord 0 ++ decryptLoop 689656763 693731349 ws :=
  decryptLoop_cons_eq 1377132351 3524224432 1398154513 0 21022162 689656763 693731349 ws
    (by rw [show decryptIndex 1377132351 = 1087 from by decide]; rw [etblv_1087]; decide)
    (by decide) (by decide) (by decide)

theorem dstep_encHT_3 (ws : List Nat) :
    decryptLoop 689656763 693731349 (1646930396 :: ws) = ofWord 0 ++ decryptLoop 2576692091 1525258820 ws :=
  decryptLoop_cons_eq 689656763 693731349 1646930396 0 957273633 2576692091 1525258820 ws
    (by rw [show decryptIndex 689656763 = 1211 from by decide]; rw [etblv_1211]; decide)
    (by decide) (by decide) (by decide)

theorem decv_encHT : mpqDecrypt [60, 118, 97, 241, 116, 64, 154, 80, 17, 37, 86, 83, 220, 41, 42, 98] 3283040112 = [240, 185, 93, 119, 188, 160, 176, 143, 0, 0, 0, 0, 0, 0, 0, 0] := by
  rw [mpqDecrypt, show toWords [60, 118, 97, 241, 116, 64, 154, 80, 17, 37, 86, 83, 220, 41, 42, 98] = [4049696316, 1352286324, 1398154513, 1646930396] from by decide]
  rw [dstep_encHT_0, dstep_encHT_1, dstep_encHT_2, dstep_encHT_3]
  decide

theorem dstep_encBTU_0 (ws : List Nat) :
    decryptLoop 3968054179 4008636142 (1028155339 :: ws) = ofWord 64 ++ decryptLoop 2627572087 1767584043 ws :=
  decryptLoop_cons_eq 3968054179 4008636142 1028155339 64 1355068392 2627572087 1767584043 ws
    (by rw [show decryptIndex 3968054179 = 1187 from by decide]; rw [etblv_1187]; decide)
    (by decide) (by decide) (by decide)

theorem dstep_encBTU_1 (ws : List Nat) :
    decryptLoop 2627572087 1767584043 (3389576132 :: ws) = ofWord 5 ++ decryptLoop 3792933811 3671296914 ws :=
  decryptLoop_cons_eq 2627572087 1767584043 3389576132 5 762004042 3792933811 3671296914 ws
    (by rw [show decryptIndex 2627572087 = 1143 from by decide]; rw [etblv_1143]; decide)
    (by decide) (by decide) (by decide)

theorem dstep_encBTU_2 (ws : List Nat) :
    decryptLoop 3792933811 3671296914 (4164271869 :: ws) = ofWord 5 ++ decryptLoop 2594001779 3664221165 ws :=
  decryptLoop_cons_eq 3792933811 3671296914 4164271869 5 371338053 2594001779 3664221165 ws
    (by rw [show decryptIndex 3792933811 = 1203 from by decide]; rw [etblv_1203]; decide)
    (by decide) (by decide) (by decide)

theorem dstep_encBTU_3 (ws : List Nat) :
    decryptLoop 2594001779 3664221165 (3895720595 :: ws) = ofWord 2147483648 ++ decryptLoop 2727564219 7047971 ws :=
  decryptLoop_cons_eq 2594001779 3664221165 3895720595 2147483648 3449202464 2727564219 7047971 ws
    (by rw [show decryptIndex 2594001779 = 1139 from by decide]; rw [etblv_1139]; decide)
    (by decide) (by decide) (by decide)

theorem decv_encBTU : mpqDecrypt [203, 103, 72, 61, 196, 211, 8, 202, 253, 190, 53, 248, 147, 250, 51, 232] 3968054179 = [64, 0, 0, 0, 5, 0, 0, 0, 5, 0, 0, 0, 0, 0, 0, 128] := by
  rw [mpqDecrypt, show toWords [203, 103, 72, 61, 196, 211, 8, 202, 253, 190, 53, 248, 147, 250, 51, 232] = [1028155339, 3389576132, 4164271869, 3895720595] from by decide]
  rw [dstep_encBTU_0, dstep_encBTU_1, dstep_encBTU_2, dstep_encBTU_3]
  decide

theorem dstep_encBTZ_0 (ws : List Nat) :
    decryptLoop 3968054179 4008636142 (1028155339 :: ws) = ofWord 64 ++ decryptLoop 2627572087 1767584043 ws :=
  decryptLoop_cons_eq 3968054179 4008636142 1028155339 64 1355068392 2627572087 1767584043 ws
    (by rw [show decryptIndex 3968054179 = 1187 from by decide]; rw [etblv_1187]; decide)
    (by decide) (by decide) (by decide)

theorem dstep_encBTZ_1 (ws : List Nat) :
    decryptLoop 2627572087 1767584043 (3389576144 :: ws) = ofWord 17 ++ decryptLoop 3792933811 3671296926 ws :=
  decryptLoop_cons_eq 2627572087 1767584043 3389576144 17 762004042 3792933811 3671296926 ws
    (by rw [show decryptIndex 2627572087 = 1143 from by decide]; rw [etblv_1143]; decide)
    (by decide) (by decide) (by decide)

theorem dstep_encBTZ_2 (ws : List Nat) :
    decryptLoop 3792933811 3671296926 (4164271873 :: ws) = ofWord 5 ++ decryptLoop 2594001779 3664221561 ws :=
  decryptLoop_cons_eq 3792933811 3671296926 4164271873 5 371338065 2594001779 3664221561 ws
    (by rw [show decryptIndex 3792933811 = 1203 from by decide]; rw [etblv_1203]; decide)
    (by decide) (by decide) (by decide)

theorem dstep_encBTZ_3 (ws : List Nat) :
    decryptLoop 2594001779 3664221561 (3895721503 :: ws) = ofWord 2147484160 ++ decryptLoop 2727564219 7061551 ws :=
  decryptLoop_cons_eq 2594001779 3664221561 3895721503 2147484160 3449202860 2727564219 7061551 ws
    (by rw [show decryptIndex 2594001779 = 1139 from by decide]; rw [etblv_1139]; decide)
    (by decide) (by decide) (by decide)

theorem decv_encBTZ : mpqDecrypt [203, 103, 72, 61, 208, 211, 8, 202, 1, 191, 53, 248, 31, 254, 51, 232] 3968054179 = [64, 0, 0, 0, 17, 0, 0, 0, 5, 0, 0, 0, 0, 2, 0, 128] := by
  rw [mpqDecrypt, show toWords [203, 103, 72, 61, 208, 211, 8, 202, 1, 191, 53, 248, 31, 254, 51, 232] = [1028155339, 3389576144, 4164271873, 3895721503] from by decide]
  rw [dstep_encBTZ_0, dstep_encBTZ_1, dstep_encBTZ_2, dstep_encBTZ_3]
  decide

theorem dstep_encBTR_0 (ws : List Nat) :
    decryptLoop 3968054179 4008636142 (1028155339 :: ws) = ofWord 64 ++ decryptLoop 2627572087 1767584043 ws :=
  decryptLoop_cons_eq 3968054179 4008636142 1028155339 64 1355068392 2627572087 1767584043 ws
    (by rw [show decryptIndex 3968054179 = 1187 from by decide]; rw [etblv_1187]; decide)
    (by decide) (by decide) (by decide)

theorem dstep_encBTR_1 (ws : List Nat) :
    decryptLoop 2627572087 1767584043 (3389576138 :: ws) = ofWord 11 ++ decryptLoop 3792933811 3671296920 ws :=
  decryptLoop_cons_eq 2627572087 1767584043 3389576138 11 762004042 3792933811 3671296920 ws
    (by rw [show decryptIndex 2627572087 = 1143 from by decide]; rw [etblv_1143]; decide)
    (by decide) (by decide) (by decide)

theorem dstep_encBTR_2 (ws : List Nat) :
    decryptLoop 3792933811 3671296920 (4164271867 :: ws) = ofWord 5 ++ decryptLoop 2594001779 3664221363 ws :=
  decryptLoop_cons_eq 3792933811 3671296920 4164271867 5 371338059 2594001779 3664221363 ws
    (by rw [show decryptIndex 3792933811 = 1203 from by decide]; rw [etblv_1203]; decide)
    (by decide) (by decide) (by decide)

theorem dstep_encBTR_3 (ws : List Nat) :
    decryptLoop 2594001779 3664221363 (3895720281 :: ws) = ofWord 2147484160 ++ decryptLoop 2727564219 7055017 ws :=
  decryptLoop_cons_eq 2594001779 3664221363 3895720281 2147484160 3449202662 2727564219 7055017 ws
    (by rw [show decryptIndex 2594001779 = 1139 from by decide]; rw [etblv_1139]; decide)
    (by decide) (by decide) (by decide)

theorem decv_encBTR : mpqDecrypt [203, 103, 72, 61, 202, 211, 8, 202, 251, 190, 53, 248, 89, 249, 51, 232] 3968054179 = [64, 0, 0, 0, 11, 0, 0, 0, 5, 0, 0, 0, 0, 2, 0, 128] := by
  rw [mpqDecrypt, show toWords [203, 103, 72, 61, 202, 211, 8, 202, 251, 190, 53, 248, 89, 249, 51, 232] = [1028155339, 3389576138, 4164271867, 3895720281] from by decide]
  rw [dstep_encBTR_0, dstep_encBTR_1, dstep_encBTR_2, dstep_encBTR_3]
  decide

/-- C2 (corrected): the encryption table assigns exactly the indices
`0..1279`, and the entry at `i + 256*round` combines the LOW 16 bits of the
cell's first seed advance (shifted left 16) with the low 16 bits of its
second seed advance — `cryptValue` transcribes the source's
`temp1 = (seed & 0xFFFF) << 0x10; temp2 = (seed & 0xFFFF)` extraction over
the global seed sequence started at `0x00100001`. -/
theorem c2_encryption_table (i r : Nat) (hi : i < 256) (hr : r < 5) :
    (∀ k, (encryptionTable k).isSome ↔ k < 1280) ∧
    encryptionTable (i + 256 * r) = some (cryptValue i r) :=
  ⟨encryptionTable_isSome_iff, encryptionTable_lookup i r hi hr⟩

/-- C2 witness: the claim's amended form evaluated at the first table cell,
whose value is `0x55C636E2`. -/
theorem c2_encryption_table_witness : encryptionTable (0 + 256 * 0) = some 1439053538 :=
  ((c2_encryption_table 0 0 (by decide) (by decide)).2).trans (by decide)

/-- C2 counterexample: at base index 0, round 0, the stored entry
`0x55C636E2` differs from the claim's formula taking the HIGH 16 bits of
the first seed advance (which would give `0x2536E2`): the code stores the
low 16 bits of the first advance in the high half. -/
theorem c2_encryption_table_counterexample :
    encryptionTable (0 + 256 * 0) ≠ some (c2ClaimEntry 0 0) ∧
    c2ClaimEntry 0 0 = 2438882 := by
  have h := encryptionTable_lookup 0 0 (by decide) (by decide)
  refine ⟨?_, by decide⟩
  rw [h]
  decide

/-! ## Decryptor length behaviour -/

theorem decryptLoop_length (ws : List Nat) : ∀ s1 s2, (decryptLoop s1 s2 ws).length = 4 * ws.length := by
  induction ws with
  | nil => intro s1 s2; rfl
  | cons w ws ih =>
    intro s1 s2
    simp only [decryptLoop, List.length_append, List.length_cons, ih, ofWord,
      List.length_nil]
    omega

theorem toWords_length : ∀ data : List Nat, (toWords data).length = data.length / 4
  | [] => by simp [toWords]
  | [a] => by simp [toWords]
  | [a, b] => by simp [toWords]
  | [a, b, c] => by simp [toWords]
  | b0 :: b1 :: b2 :: b3 :: rest => by
      show (_ :: toWords rest).length = _
      rw [List.length_cons, toWords_length rest]
      simp only [List.length_cons]
      omega

/-- C9: `_decrypt` never fails on a buffer whose length is not a multiple
of four; it silently emits `4 * (n / 4)` bytes, dropping the trailing
fragment, and in particular returns the empty buffer when `n < 4`.
(Totality of `mpqDecrypt` reflects that the Python loop
`for i in range(len(data) // 4)` never touches the fragment.) -/
theorem c9_decrypt_truncates (data : List Nat) (key : Nat) :
    (mpqDecrypt data key).length = 4 * (data.length / 4) ∧
    (data.length < 4 → mpqDecrypt data key = []) := by
  have hlen : (mpqDecrypt data key).length = 4 * (data.length / 4) := by
    rw [mpqDecrypt, decryptLoop_length, toWords_length]
  refine ⟨hlen, fun h => ?_⟩
  have h0 : (mpqDecrypt data key).length = 0 := by
    rw [hlen]
    omega
  exact List.eq_nil_of_length_eq_zero h0

/-- C9 witness: a three-byte buffer decrypts to the empty buffer. -/
theorem c9_decrypt_truncates_witness : mpqDecrypt [0, 1, 2] 7 = [] :=
  (c9_decrypt_truncates [0, 1, 2] 7).2 (by decide)

/-! ## The decryptor recurrence (claim C4) -/

theorem lor_mod_M32 (x y : Nat) : (x ||| y) % M32 = x % M32 ||| y % M32 := by
  have hM : M32 = 2 ^ 32 := by norm_num [M32]
  rw [hM]
  apply Nat.eq_of_testBit_eq
  intro i
  simp only [Nat.testBit_mod_two_pow, Nat.testBit_lor, Bool.and_or_distrib_left]

theorem c4State_lt (data : List Nat) (key : Nat) (hk : key < M32) :
    ∀ i, (c4State data key i).1 < M32 ∧ (c4State data key i).2 < M32 := by
  intro i
  induction i with
  | zero => exact ⟨hk, by norm_num [c4State, M32]⟩
  | succ i ih =>
    constructor
    · show (_ % M32) < M32
      exact Nat.mod_lt _ (by norm_num [M32])
    · show (_ % M32) < M32
      exact Nat.mod_lt _ (by norm_num [M32])

theorem step_s1n_eq (s1 : Nat) (h : s1 < M32) :
    (((M32 - 1 - s1 % M32) * 2097152 + 286331153) % M32) ||| (s1 / 2048 % M32)
      = ((((M32 - 1 - s1) <<< 21) + 0x11111111) ||| (s1 >>> 11)) % M32 := by
  have h1 : s1 % M32 = s1 := Nat.mod_eq_of_lt h
  rw [Nat.shiftLeft_eq, Nat.shiftRight_eq_div_pow, lor_mod_M32, h1]

theorem toWords_cons_of_le : ∀ (l : List Nat), 4 ≤ l.length →
    toWords l = bytesToNatLE (l.take 4) :: toWords (l.drop 4) := by
  intro l hl
  match l with
  | [] => simp at hl
  | [a] => simp at hl
  | [a, b] => simp at hl
  | [a, b, c] => simp at hl
  | b0 :: b1 :: b2 :: b3 :: rest => rfl

theorem decryptLoop_c4 (data : List Nat) (key : Nat) (hk : key < M32) :
    ∀ (m k : Nat), 4 * k + 4 * m = data.length →
      decryptLoop (c4State data key k).1 (c4State data key k).2 (toWords (data.drop (4 * k)))
        = ((List.range m).map (fun i => ofWord (c4Word data key (k + i)))).flatten := by
  intro m
  induction m with
  | zero =>
    intro k hk4
    rw [List.drop_eq_nil_of_le (by omega)]
    rfl
  | succ m ih =>
    intro k hk4
    have htl : 4 ≤ (data.drop (4 * k)).length := by
      rw [List.length_drop]
      omega
    rw [toWords_cons_of_le _ htl, List.drop_drop,
        show 4 * k + 4 = 4 * (k + 1) from by omega]
    have hs1 : (c4State data key k).1 < M32 := (c4State_lt data key hk k).1
    rw [decryptLoop_cons_eq (c4State data key k).1 (c4State data key k).2
          (bytesToNatLE ((data.drop (4 * k)).take 4)) (c4Word data key k)
          (((c4State data key k).2 + etbl (decryptIndex (c4State data key k).1)) % M32)
          (c4State data key (k + 1)).1 (c4State data key (k + 1)).2
          (toWords (data.drop (4 * (k + 1)))) rfl rfl
          ((step_s1n_eq _ hs1).trans rfl) rfl]
    rw [ih (k + 1) (by omega)]
    rw [List.range_succ_eq_map, List.map_cons, List.map_map, List.flatten_cons, Nat.add_zero]
    refine congrArg (ofWord (c4Word data key k) ++ ·) ?_
    refine congrArg List.flatten ?_
    refine congrFun (congrArg List.map (funext fun i => ?_)) (List.range m)
    show ofWord (c4Word data key (k + 1 + i)) = ofWord (c4Word data key (k + Nat.succ i))
    rw [show k + 1 + i = k + Nat.succ i from by omega]

theorem flatten_slice (L : List (List Nat)) (h4 : ∀ l ∈ L, l.length = 4) :
    ∀ (i : Nat) (hi : i < L.length), slice L.flatten (4 * i) 4 = L.get ⟨i, hi⟩ := by
  induction L with
  | nil =>
    intro i hi
    exact absurd hi (by simp)
  | cons a L ih =>
    intro i hi
    have ha : a.length = 4 := h4 a (by simp)
    match i, hi with
    | 0, hi =>
      show slice (a :: L).flatten 0 4 = a
      rw [List.flatten_cons, slice, List.drop_zero,
          List.take_append_of_le_length (by omega), ← ha, List.take_length]
    | i + 1, hi =>
      show slice (a :: L).flatten (4 * (i + 1)) 4 = L.get ⟨i, by simpa using hi⟩
      rw [List.flatten_cons, slice, show 4 * (i + 1) = a.length + 4 * i from by omega,
          List.drop_append]
      exact ih (fun l hl => h4 l (by simp [hl])) i (by simpa using hi)

/-- C4: on a buffer whose length is a multiple of 4 and a 32-bit key,
`_decrypt` returns a buffer of the same length whose `i`-th little-endian
32-bit word follows the claim's recurrence (`c4State`/`c4Word`, transcribed
from the claim's words, including the `NOT`-and-shift seed scramble). -/
theorem c4_decrypt_spec (data : List Nat) (key : Nat) (hk : key < M32)
    (hlen : data.length % 4 = 0) :
    (mpqDecrypt data key).length = data.length ∧
    ∀ i, i < data.length / 4 →
      slice (mpqDecrypt data key) (4 * i) 4 = ofWord (c4Word data key i) := by
  have hmain := decryptLoop_c4 data key hk (data.length / 4) 0 (by omega)
  rw [List.drop_zero] at hmain
  have hm0 : mpqDecrypt data key
      = ((List.range (data.length / 4)).map (fun i => ofWord (c4Word data key i))).flatten := by
    refine hmain.trans ?_
    refine congrArg List.flatten ?_
    refine congrFun (congrArg List.map (funext fun i => ?_)) (List.range (data.length / 4))
    rw [Nat.zero_add]
  constructor
  · rw [mpqDecrypt, decryptLoop_length, toWords_length]
    omega
  · intro i hi
    rw [hm0]
    have hlenmap : i < ((List.range (data.length / 4)).map
        (fun i => ofWord (c4Word data key i))).length := by
      simpa using hi
    rw [flatten_slice _ ?h4 i hlenmap]
    case h4 =>
      intro l hl
      obtain ⟨j, -, rfl⟩ := List.mem_map.mp hl
      rfl
    rw [List.get_eq_getElem, List.getElem_map, List.getElem_range]

/-- C4 witness: the recurrence theorem applied to a concrete 8-byte buffer
and key, giving its second word. -/
theorem c4_decrypt_spec_witness :
    slice (mpqDecrypt [1, 2, 3, 4, 5, 6, 7, 8] 12345) (4 * 1) 4
      = ofWord (c4Word [1, 2, 3, 4, 5, 6, 7, 8] 12345 1) :=
  (c4_decrypt_spec [1, 2, 3, 4, 5, 6, 7, 8] 12345 (by norm_num [M32]) (by decide)).2 1 (by decide)

/-! ## Hash case-insensitivity -/

theorem mpqUpper_idem (c : Nat) : mpqUpper (mpqUpper c) = mpqUpper c := by
  unfold mpqUpper
  by_cases h : 97 ≤ c ∧ c ≤ 122
  · rw [if_pos h, if_neg (by omega : ¬(97 ≤ c - 32 ∧ c - 32 ≤ 122))]
  · rw [if_neg h, if_neg h]

theorem hashStep_upper (t : Nat) (st : Nat × Nat) (c : Nat) :
    hashStep t st (mpqUpper c) = hashStep t st c := by
  simp only [hashStep, mpqUpper_idem]

theorem foldl_hashStep_upper (t : Nat) (s : List Nat) : ∀ st,
    List.foldl (hashStep t) st (s.map mpqUpper) = List.foldl (hashStep t) st s := by
  induction s with
  | nil => intro st; rfl
  | cons c cs ih =>
    intro st
    simp only [List.map_cons, List.foldl_cons]
    rw [hashStep_upper]
    exact ih _

/-- C5: `_hash` is a pure function (determinism) and is case-insensitive:
upper-casing the input string does not change the result under any hash
kind, and in particular `_hash('file.txt', 'HASH_A')` equals
`_hash('FILE.TXT', 'HASH_A')`. -/
theorem c5_hash_case_insensitive (s : List Nat) (t : Nat) (ht : t < 4)
    (hascii : ∀ c ∈ s, c < 128) :
    mpqHash (s.map mpqUpper) t = mpqHash s t ∧
    mpqHash (strBytes "file.txt") 1 = mpqHash (strBytes "FILE.TXT") 1 := by
  refine ⟨?_, hashv_filetxt.trans hashv_FILETXT.symm⟩
  rw [mpqHash, mpqHash, foldl_hashStep_upper]

/-- C5 witness: the case-insensitivity theorem applied at `file.txt` with
hash kind `HASH_A`. -/
theorem c5_hash_case_insensitive_witness :
    mpqHash ((strBytes "file.txt").map mpqUpper) 1 = mpqHash (strBytes "file.txt") 1 :=
  (c5_hash_case_insensitive (strBytes "file.txt") 1 (by decide) (by decide)).1

/-- C10: every encryption-table index computed by `_hash` (for a hash kind
below 4 and a byte character) lies below 1280 and is assigned in the table,
and every index computed by `_decrypt` lies in `1024..1279` and is
assigned, so the dict lookups never fail. -/
theorem c10_table_indices_in_bounds (t c s1 : Nat) (htt : t < 4) (hc : c ≤ 255) :
    (hashIndex t (mpqUpper c) < 1280 ∧ (encryptionTable (hashIndex t (mpqUpper c))).isSome) ∧
    (1024 ≤ decryptIndex s1 ∧ decryptIndex s1 < 1280 ∧
      (encryptionTable (decryptIndex s1)).isSome) := by
  have hup : mpqUpper c ≤ 255 := by
    unfold mpqUpper
    split <;> omega
  have h28 : (2 : Nat) ^ 8 = 256 := by norm_num
  have h1 : hashIndex t (mpqUpper c) < 1280 := by
    rw [hashIndex, Nat.shiftLeft_eq, h28]
    omega
  have hmod : s1 % 256 < 256 := Nat.mod_lt _ (by omega)
  have h2 : 1024 ≤ decryptIndex s1 ∧ decryptIndex s1 < 1280 := by
    rw [decryptIndex]
    omega
  exact ⟨⟨h1, (encryptionTable_isSome_iff _).mpr h1⟩,
    h2.1, h2.2, (encryptionTable_isSome_iff _).mpr h2.2⟩

/-- C10 witness: the bounds theorem applied at hash kind `HASH_A`,
character `a`, and an arbitrary 32-bit seed. -/
theorem c10_table_indices_in_bounds_witness :
    (hashIndex 1 (mpqUpper 97) < 1280 ∧
      (encryptionTable (hashIndex 1 (mpqUpper 97))).isSome) ∧
    (1024 ≤ decryptIndex 3735928559 ∧ decryptIndex 3735928559 < 1280 ∧
      (encryptionTable (decryptIndex 3735928559)).isSome) :=
  c10_table_indices_in_bounds 1 97 3735928559 (by decide) (by decide)

/-! ## Header error behaviour -/

theorem fread_zero (f : List Nat) (n : Nat) : fread f 0 n = f.take n := by
  rw [fread, List.drop_zero]

/-- C6 (code bug evidence): for any byte source whose first four bytes are
neither `MPQ\x1a` nor `MPQ\x1b`, `read_header` falls off the `if`/`elif`
chain and executes `return header` with the local `header` never assigned,
raising `UnboundLocalError` — there is no `FormatError` (or any structured
format error) anywhere in the source. -/
theorem c6_bad_magic_unbound_local (f : List Nat) (h1a : f.take 4 ≠ magic1a)
    (h1b : f.take 4 ≠ magic1b) :
    readHeader f = .error .unboundLocalError := by
  simp only [readHeader, fread_zero]
  rw [if_neg h1a, if_neg h1b]

/-- C6 witness: an archive starting with `ABCD` makes `read_header` raise
`UnboundLocalError`. -/
theorem c6_bad_magic_unbound_local_witness :
    readHeader [65, 66, 67, 68] = .error .unboundLocalError :=
  c6_bad_magic_unbound_local [65, 66, 67, 68] (by decide) (by decide)

/-! ## Missing-file behaviour of `read_file` -/

/-- Evaluation scheme for `read_table` with the byte range and the
decryption given as hypotheses. -/
theorem readTable_eq (f : List Nat) (hdr : MPQHeader) (t : TableKind) (enc dec : List Nat)
    (hpos : ¬ (tableOffsetOf hdr t + hdr.offset < 0))
    (hread : freadI f (tableOffsetOf hdr t + hdr.offset).toNat (tableEntriesOf hdr t * 16) = enc)
    (hdec : mpqDecrypt enc (mpqHash (tableKey t) 3) = dec) :
    readTable f hdr t = .ok dec := by
  simp only [readTable]
  rw [if_neg hpos, hread, hdec]

theorem tableKey_hash : tableKey .hash = strBytes "(hash table)" := rfl

theorem tableKey_block : tableKey .block = strBytes "(block table)" := rfl

/-- Consistency of the concrete archives: their headers parse to
`hdrStd`, and their encrypted tables decrypt to the plaintext tables used
by the claim theorems. -/
theorem fixture_tables :
    readHeader fileU = .ok (hdrStd 69) ∧
    readHeader fileZ = .ok (hdrStd 81) ∧
    readHeader fileR = .ok (hdrStd 75) ∧
    readTable fileU (hdrStd 69) .hash = .ok plainHT ∧
    readTable fileU (hdrStd 69) .block = .ok plainBTU ∧
    readTable fileZ (hdrStd 81) .hash = .ok plainHT ∧
    readTable fileZ (hdrStd 81) .block = .ok plainBTZ ∧
    readTable fileR (hdrStd 75) .block = .ok plainBTR := by
  refine ⟨by decide, by decide, by decide, ?_, ?_, ?_, ?_, ?_⟩
  · exact readTable_eq _ _ _ encHT plainHT (by decide) (by decide)
      (by rw [tableKey_hash, hashv_htk]; exact decv_encHT)
  · exact readTable_eq _ _ _ encBTU plainBTU (by decide) (by decide)
      (by rw [tableKey_block, hashv_btk]; exact decv_encBTU)
  · exact readTable_eq _ _ _ encHT plainHT (by decide) (by decide)
      (by rw [tableKey_hash, hashv_htk]; exact decv_encHT)
  · exact readTable_eq _ _ _ encBTZ plainBTZ (by decide) (by decide)
      (by rw [tableKey_block, hashv_btk]; exact decv_encBTZ)
  · exact readTable_eq _ _ _ encBTR plainBTR (by decide) (by decide)
      (by rw [tableKey_block, hashv_btk]; exact decv_encBTR)

/-- C1 (code bug evidence): `read_file` for a filename with no matching
hash-table entry does not fail with any not-found error.  The loop leaks
its last iteration variable, so the code proceeds with the LAST scanned
entry: on the archive `fileU` (single member `a.txt` storing `hello`),
`read_file('b.txt')` returns `a.txt`'s bytes `hello`; and when the leaked
entry's block entry lacks `MPQ_FILE_EXISTS`, the function returns Python
`None` rather than raising. -/
theorem c1_missing_notfound_code_bug :
    readFile fileU (hdrStd 69) plainHT plainBTU (strBytes "b.txt")
      = .ok (some helloBytes) ∧
    readFile fileU (hdrStd 69) plainHT plainBTN (strBytes "b.txt") = .ok none := by
  constructor
  · simp only [readFile]
    rw [hashv_btxt1, hashv_btxt2]
    decide
  · simp only [readFile]
    rw [hashv_btxt1, hashv_btxt2]
    decide

/-! ## Compressed members (claim C3) -/

/-- C3 (corrected): when the resolved block entry has both `MPQ_FILE_EXISTS`
and `MPQ_FILE_COMPRESS` set and the stored bytes begin with the
compression-method byte 2, `read_file` applies `zlib.decompress(rest, 15)`,
which requires a ZLIB-WRAPPED stream (two-byte header plus Adler-32
trailer), not a raw deflate stream: the result is the decompression of the
bytes after the method byte when the wrapper is present, and a zlib error
otherwise. -/
theorem c3_compress_zlib (f ht bt : List Nat) (hdr : MPQHeader) (name : List Nat)
    (e : MPQHashTableEntry) (bte : MPQBlockTableEntry) (rest : List Nat)
    (hscan : scanHashTable ht (mpqHash name 1) (mpqHash name 2) 0
      hdr.hash_table_entries.toNat = .ok e)
    (hbte : unpackBlockEntry (slice bt (e.block_table_index * 16) 16) = .ok bte)
    (hex : bte.flags &&& MPQ_FILE_EXISTS ≠ 0)
    (hcomp : bte.flags &&& MPQ_FILE_COMPRESS ≠ 0)
    (hpos : ¬ ((bte.offset : Int) + hdr.offset < 0))
    (hdata : fread f ((bte.offset : Int) + hdr.offset).toNat bte.archived_size = 2 :: rest) :
    readFile f hdr ht bt name = (zlibDecompress rest).map some := by
  simp only [readFile, readFileEntry, readFileBlock, hscan, hbte, hdata]
  rw [if_pos hex, if_neg hpos, if_pos hcomp, if_pos trivial]
  cases zlibDecompress rest <;> rfl

/-- C3 witness: on the minimal archive whose member `a.txt` stores the
method byte 2 followed by a zlib-wrapped stream, `read_file('a.txt')`
returns exactly `hello`. -/
theorem c3_compress_zlib_witness :
    readFile fileZ (hdrStd 81) plainHT plainBTZ (strBytes "a.txt") = .ok (some helloBytes) := by
  have h := c3_compress_zlib fileZ plainHT plainBTZ (hdrStd 81) (strBytes "a.txt")
    ⟨2002631152, 2410717372, 0, 0, 0⟩ ⟨64, 17, 5, 2147484160⟩ zstream
    (by rw [hashv_atxt1, hashv_atxt2]; decide)
    (by decide) (by decide) (by decide) (by decide) (by decide)
  exact h.trans (by decide)

/-- C3 counterexample: the same archive with the stored bytes being the
method byte 2 followed by a valid RAW deflate stream (no zlib wrapper) for
`hello` makes `read_file('a.txt')` raise `zlib.error` instead of returning
`hello`, refuting the claim as stated. -/
theorem c3_raw_deflate_counterexample :
    readFile fileR (hdrStd 75) plainHT plainBTR (strBytes "a.txt") = .error .zlibError ∧
    readFile fileR (hdrStd 75) plainHT plainBTR (strBytes "a.txt")
      ≠ .ok (some helloBytes) := by
  have h : readFile fileR (hdrStd 75) plainHT plainBTR (strBytes "a.txt")
      = .error .zlibError := by
    simp only [readFile]
    rw [hashv_atxt1, hashv_atxt2]
    decide
  refine ⟨h, ?_⟩
  rw [h]
  decide

/-! ## User-data framing (claim C7) -/

theorem fread_shift {F B : List Nat} (h : Nat) (hal : F.drop h = B) (p n : Nat) :
    fread F (h + p) n = fread B p n := by
  rw [fread, fread, ← List.drop_drop, hal]

theorem freadI_shift {F B : List Nat} (h : Nat) (hal : F.drop h = B) (p : Nat) (n : Int) :
    freadI F (h + p) n = freadI B p n := by
  rw [freadI, freadI, ← List.drop_drop, hal]

theorem readMpqHeaderAt_shift {F B : List Nat} (h : Nat) (hal : F.drop h = B) :
    readMpqHeaderAt F h = readMpqHeaderAt B 0 := by
  have h32 : fread F h 32 = fread B 0 32 := by
    rw [fread, fread, hal, List.drop_zero]
  have h12 : fread F (h + 32) 12 = fread B (0 + 32) 12 := fread_shift h hal 32 12
  simp only [readMpqHeaderAt, h32, h12]

theorem readHeader_bare_inv {B : List Nat} {hdrB : MPQHeader} (hB : B.take 4 = magic1a)
    (hok : readHeader B = .ok hdrB) :
    ∃ c, readMpqHeaderAt B 0 = .ok c ∧ hdrB = { c with offset := 0 } := by
  simp only [readHeader, fread_zero, hB, if_pos] at hok
  cases hc : readMpqHeaderAt B 0 with
  | error e =>
    rw [hc] at hok
    cases hok
  | ok c =>
    rw [hc] at hok
    cases hok
    exact ⟨c, rfl, rfl⟩

/-- C7: opening an archive framed by a user-data header (`MPQ\x1b`, parsed
user-data header `udh` with archive-header offset `h > 0`) whose bytes from
offset `h` on equal the bare archive `B` succeeds transparently: the parsed
header is the bare archive's header with `offset` (the base offset) set to
`h` and the user-data header attached, every table read with a nonnegative
table offset returns the same bytes as on the bare archive, and every file
read returns the same result as on the bare archive. -/
theorem c7_user_data_framing (F B : List Nat) (udh : MPQUserDataHeader) (h : Nat)
    (hmagF : F.take 4 = magic1b)
    (hud : unpackUserDataHeader F = .ok udh)
    (hoff : udh.mpq_header_offset = (h : Int))
    (hpos : 0 < h)
    (halign : F.drop h = B)
    (hmagB : B.take 4 = magic1a)
    (hdrB : MPQHeader)
    (hB : readHeader B = .ok hdrB) :
    readHeader F = .ok { hdrB with offset := (h : Int), user_data_header := some udh } ∧
    (∀ t, 0 ≤ tableOffsetOf hdrB t →
      readTable F { hdrB with offset := (h : Int), user_data_header := some udh } t
        = readTable B hdrB t) ∧
    (∀ ht bt nm,
      readFile F { hdrB with offset := (h : Int), user_data_header := some udh } ht bt nm
        = readFile B hdrB ht bt nm) := by
  obtain ⟨c, hc, hdrBc⟩ := readHeader_bare_inv hmagB hB
  have hoffB : hdrB.offset = 0 := by rw [hdrBc]
  refine ⟨?_, ?_, ?_⟩
  · simp only [readHeader, fread_zero, hmagF, hud, hoff,
      if_neg (show ¬ ((h : Int) = 0) from by omega),
      if_neg (show ¬ ((h : Int) < 0) from by omega)]
    rw [show ((h : Int)).toNat = h from by omega]
    simp only [readMpqHeaderAt_shift h halign, hc]
    rw [hdrBc, if_neg (show magic1b ≠ magic1a from by decide), if_pos trivial]
  · intro t htoff
    have hto : tableOffsetOf { hdrB with offset := (h : Int), user_data_header := some udh } t
        = tableOffsetOf hdrB t := by cases t <;> rfl
    have hte : tableEntriesOf { hdrB with offset := (h : Int), user_data_header := some udh } t
        = tableEntriesOf hdrB t := by cases t <;> rfl
    simp only [readTable, hto, hte, hoffB]
    rw [if_neg (show ¬ (tableOffsetOf hdrB t + (h : Int) < 0) from by omega)]
    rw [if_neg (show ¬ (tableOffsetOf hdrB t + 0 < 0) from by omega)]
    rw [show (tableOffsetOf hdrB t + (h : Int)).toNat
          = h + (tableOffsetOf hdrB t + 0).toNat from by omega]
    rw [freadI_shift h halign]
  · intro ht bt nm
    have hblock : ∀ bte,
        readFileBlock F { hdrB with offset := (h : Int), user_data_header := some udh } bte
          = readFileBlock B hdrB bte := by
      intro bte
      simp only [readFileBlock, hoffB]
      by_cases hex : bte.flags &&& MPQ_FILE_EXISTS ≠ 0
      · rw [if_pos hex, if_pos hex]
        rw [if_neg (show ¬ ((bte.offset : Int) + (h : Int) < 0) from by omega)]
        rw [if_neg (show ¬ ((bte.offset : Int) + 0 < 0) from by omega)]
        rw [show ((bte.offset : Int) + (h : Int)).toNat
              = h + ((bte.offset : Int) + 0).toNat from by omega]
        rw [fread_shift h halign]
      · rw [if_neg hex, if_neg hex]
    have hentry : ∀ e,
        readFileEntry F { hdrB with offset := (h : Int), user_data_header := some udh } bt e
          = readFileEntry B hdrB bt e := by
      intro e
      simp only [readFileEntry]
      cases unpackBlockEntry (slice bt (e.block_table_index * 16) 16) with
      | error e2 => rfl
      | ok bte => exact hblock bte
    simp only [readFile]
    cases scanHashTable ht (mpqHash nm 1) (mpqHash nm 2) 0 hdrB.hash_table_entries.toNat with
    | error e => rfl
    | ok e => exact hentry e

/-- C7 witness: the framing theorem applied to the concrete framed archive
`fileF` (user-data header with archive offset 17) over the bare archive
`fileZ`, instantiated at the hash-table read and the member `a.txt`. -/
theorem c7_user_data_framing_witness :
    readHeader fileF
      = .ok { hdrStd 81 with offset := (17 : Int), user_data_header := some udhF } ∧
    readTable fileF { hdrStd 81 with offset := (17 : Int), user_data_header := some udhF } .hash
      = readTable fileZ (hdrStd 81) .hash ∧
    readFile fileF { hdrStd 81 with offset := (17 : Int), user_data_header := some udhF }
        plainHT plainBTZ (strBytes "a.txt")
      = readFile fileZ (hdrStd 81) plainHT plainBTZ (strBytes "a.txt") := by
  have h := c7_user_data_framing fileF fileZ udhF 17 (by decide) (by decide) (by decide)
    (by decide) (by decide) (by decide) (hdrStd 81) (by decide)
  exact ⟨h.1, h.2.1 .hash (by decide), h.2.2 plainHT plainBTZ (strBytes "a.txt")⟩

/-! ## Locale/platform independence of lookup (claim C8) -/

theorem slice16_parts_eq (ht1 ht2 : List Nat) (hlen : ht1.length = ht2.length)
    (hsame : ∀ j, j < ht1.length → j % 16 < 8 ∨ 12 ≤ j % 16 → ht1[j]? = ht2[j]?) (i : Nat) :
    (slice ht1 (i * 16) 16).length = (slice ht2 (i * 16) 16).length ∧
    ((slice ht1 (i * 16) 16).length = 16 →
      slice (slice ht1 (i * 16) 16) 0 4 = slice (slice ht2 (i * 16) 16) 0 4 ∧
      slice (slice ht1 (i * 16) 16) 4 4 = slice (slice ht2 (i * 16) 16) 4 4 ∧
      slice (slice ht1 (i * 16) 16) 12 4 = slice (slice ht2 (i * 16) 16) 12 4) := by
  constructor
  · rw [slice, slice, List.length_take, List.length_take, List.length_drop,
        List.length_drop, hlen]
  · intro h16
    have hbound : i * 16 + 16 ≤ ht1.length := by
      rw [slice, List.length_take, List.length_drop] at h16
      omega
    refine ⟨?_, ?_, ?_⟩
    · refine List.ext_getElem? fun n => ?_
      simp only [slice, List.drop_zero, List.getElem?_take, List.getElem?_drop]
      by_cases hn : n < 4
      · simp only [if_pos hn, if_pos (show n < 16 from by omega)]
        exact hsame (i * 16 + n) (by omega) (by omega)
      · simp only [if_neg hn]
    · refine List.ext_getElem? fun n => ?_
      simp only [slice, List.getElem?_take, List.getElem?_drop]
      by_cases hn : n < 4
      · simp only [if_pos hn, if_pos (show 4 + n < 16 from by omega)]
        exact hsame (i * 16 + (4 + n)) (by omega) (by omega)
      · simp only [if_neg hn]
    · refine List.ext_getElem? fun n => ?_
      simp only [slice, List.getElem?_take, List.getElem?_drop]
      by_cases hn : n < 4
      · simp only [if_pos hn, if_pos (show 12 + n < 16 from by omega)]
        exact hsame (i * 16 + (12 + n)) (by omega) (by omega)
      · simp only [if_neg hn]

theorem unpackHashEntry_rel (ht1 ht2 : List Nat) (hlen : ht1.length = ht2.length)
    (hsame : ∀ j, j < ht1.length → j % 16 < 8 ∨ 12 ≤ j % 16 → ht1[j]? = ht2[j]?) (i : Nat) :
    (unpackHashEntry (slice ht1 (i * 16) 16) = .error .structError ∧
     unpackHashEntry (slice ht2 (i * 16) 16) = .error .structError) ∨
    (∃ e1 e2, unpackHashEntry (slice ht1 (i * 16) 16) = .ok e1 ∧
      unpackHashEntry (slice ht2 (i * 16) 16) = .ok e2 ∧
      e1.hash_a = e2.hash_a ∧ e1.hash_b = e2.hash_b ∧
      e1.block_table_index = e2.block_table_index) := by
  obtain ⟨hl, hparts⟩ := slice16_parts_eq ht1 ht2 hlen hsame i
  by_cases h16 : (slice ht1 (i * 16) 16).length = 16
  · right
    obtain ⟨hp0, hp4, hp12⟩ := hparts h16
    refine ⟨{ hash_a := bytesToNatLE (slice (slice ht1 (i * 16) 16) 0 4),
              hash_b := bytesToNatLE (slice (slice ht1 (i * 16) 16) 4 4),
              locale := bytesToNatLE (slice (slice ht1 (i * 16) 16) 8 2),
              platform := bytesToNatLE (slice (slice ht1 (i * 16) 16) 10 2),
              block_table_index := bytesToNatLE (slice (slice ht1 (i * 16) 16) 12 4) },
            { hash_a := bytesToNatLE (slice (slice ht2 (i * 16) 16) 0 4),
              hash_b := bytesToNatLE (slice (slice ht2 (i * 16) 16) 4 4),
              locale := bytesToNatLE (slice (slice ht2 (i * 16) 16) 8 2),
              platform := bytesToNatLE (slice (slice ht2 (i * 16) 16) 10 2),
              block_table_index := bytesToNatLE (slice (slice ht2 (i * 16) 16) 12 4) },
            ?_, ?_, ?_, ?_, ?_⟩
    · rw [unpackHashEntry, if_pos h16]
    · rw [unpackHashEntry, if_pos (hl ▸ h16)]
    · exact congrArg bytesToNatLE hp0
    · exact congrArg bytesToNatLE hp4
    · exact congrArg bytesToNatLE hp12
  · left
    exact ⟨by rw [unpackHashEntry, if_neg h16], by rw [unpackHashEntry, if_neg (hl ▸ h16)]⟩

theorem scanHashTable_succ (ht : List Nat) (ha hb i count : Nat) :
    scanHashTable ht ha hb i (count + 1)
      = match unpackHashEntry (slice ht (i * 16) 16) with
        | .error e => .error e
        | .ok entry =>
          if entry.hash_a = ha ∧ entry.hash_b = hb then .ok entry
          else if count = 0 then .ok entry
          else scanHashTable ht ha hb (i + 1) count := rfl

theorem scanHashTable_rel (ht1 ht2 : List Nat) (hlen : ht1.length = ht2.length)
    (hsame : ∀ j, j < ht1.length → j % 16 < 8 ∨ 12 ≤ j % 16 → ht1[j]? = ht2[j]?)
    (ha hb : Nat) :
    ∀ (count i : Nat),
      scanOutcomeRel (scanHashTable ht1 ha hb i count) (scanHashTable ht2 ha hb i count) := by
  intro count
  induction count with
  | zero =>
    intro i
    show (PyErr.unboundLocalError = PyErr.unboundLocalError)
    rfl
  | succ count ih =>
    intro i
    rcases unpackHashEntry_rel ht1 ht2 hlen hsame i with ⟨h1, h2⟩ | ⟨e1, e2, h1, h2, hha, hhb, hbi⟩
    · rw [scanHashTable_succ, scanHashTable_succ, h1, h2]
      show PyErr.structError = PyErr.structError
      rfl
    · rw [scanHashTable_succ, scanHashTable_succ, h1, h2]
      show scanOutcomeRel
        (if e1.hash_a = ha ∧ e1.hash_b = hb then .ok e1
         else if count = 0 then .ok e1 else scanHashTable ht1 ha hb (i + 1) count)
        (if e2.hash_a = ha ∧ e2.hash_b = hb then .ok e2
         else if count = 0 then .ok e2 else scanHashTable ht2 ha hb (i + 1) count)
      have hm2 : (e1.hash_a = ha ∧ e1.hash_b = hb) ↔ (e2.hash_a = ha ∧ e2.hash_b = hb) := by
        rw [hha, hhb]
      by_cases hm : e1.hash_a = ha ∧ e1.hash_b = hb
      · rw [if_pos hm, if_pos (hm2.mp hm)]
        exact hbi
      · rw [if_neg hm, if_neg (fun hh => hm (hm2.mpr hh))]
        by_cases hz : count = 0
        · rw [if_pos hz, if_pos hz]
          exact hbi
        · rw [if_neg hz, if_neg hz]
          exact ih (i + 1)

/-- C8: `read_file` never inspects the locale or platform fields of
hash-table entries: for two decrypted hash tables of equal length that
agree on every byte outside positions `8..11` of each 16-byte entry (the
locale and platform fields), `read_file` returns the same result for every
archive, header, block table, and filename. -/
theorem c8_locale_platform_independent (ht1 ht2 : List Nat)
    (hlen : ht1.length = ht2.length)
    (hsame : ∀ j, j < ht1.length → j % 16 < 8 ∨ 12 ≤ j % 16 → ht1[j]? = ht2[j]?) :
    ∀ (f : List Nat) (hdr : MPQHeader) (bt name : List Nat),
      readFile f hdr ht1 bt name = readFile f hdr ht2 bt name := by
  intro f hdr bt name
  have hrel := scanHashTable_rel ht1 ht2 hlen hsame (mpqHash name 1) (mpqHash name 2)
    hdr.hash_table_entries.toNat 0
  simp only [readFile]
  cases h1 : scanHashTable ht1 (mpqHash name 1) (mpqHash name 2) 0
      hdr.hash_table_entries.toNat with
  | error e1 =>
    cases h2 : scanHashTable ht2 (mpqHash name 1) (mpqHash name 2) 0
        hdr.hash_table_entries.toNat with
    | error e2 =>
      rw [h1, h2] at hrel
      show Except.error e1 = Except.error e2
      rw [show e1 = e2 from hrel]
    | ok e2 =>
      rw [h1, h2] at hrel
      exact absurd hrel (fun hh => hh)
  | ok e1 =>
    cases h2 : scanHashTable ht2 (mpqHash name 1) (mpqHash name 2) 0
        hdr.hash_table_entries.toNat with
    | error e2 =>
      rw [h1, h2] at hrel
      exact absurd hrel (fun hh => hh)
    | ok e2 =>
      rw [h1, h2] at hrel
      show readFileEntry f hdr bt e1 = readFileEntry f hdr bt e2
      simp only [readFileEntry]
      rw [show e1.block_table_index = e2.block_table_index from hrel]

/-- C8 witness: the independence theorem applied to the concrete hash table
of the test archive and a copy with different locale and platform fields. -/
theorem c8_locale_platform_independent_witness :
    readFile fileU (hdrStd 69) plainHT plainBTU (strBytes "a.txt")
      = readFile fileU (hdrStd 69) plainHTloc plainBTU (strBytes "a.txt") :=
  c8_locale_platform_independent plainHT plainHTloc (by decide) (by decide)
    fileU (hdrStd 69) plainBTU (strBytes "a.txt")

end Mpyq
